import Mathlib

/-!
Verification of the syscall-trace feature-extraction engine
(`ground_truth/scripts/feature_extractor.py`).

Python strings are modelled as `List Char`; Python `int` as `ℤ`; Python
`float` as `ℚ` (exact arithmetic), with a separate IEEE-754 binary64
rounding model where the distinction matters; code that can raise an
exception returns `Except Unit _`.
-/

abbrev Str := List Char

deriving instance DecidableEq for Except

/-- ASCII model of the regex class `\w` (`[A-Za-z0-9_]`). -/
def isWordChar (c : Char) : Bool := c.isAlphanum || c = '_'

/-- ASCII model of Python whitespace (`str.isspace` / regex `\s`). -/
def isSpaceChar (c : Char) : Bool :=
  c = ' ' || c = '\t' || c = '\n' || c = '\r' || c = '\x0b' || c = '\x0c'

/-- Python `str.strip()`. -/
def pyStrip (l : Str) : Str :=
  ((l.dropWhile isSpaceChar).reverse.dropWhile isSpaceChar).reverse

/-- Python `line.startswith('#')`. -/
def startsHash : Str → Bool
  | [] => false
  | c :: _ => c = '#'

/-- The guard `if not line.strip() or line.startswith('#')` of
`parse_syscall_line` (feature_extractor.py line 87): blank lines and
lines whose very first character is `#` yield no record. -/
def lineSkipped (l : Str) : Bool := (pyStrip l).isEmpty || startsHash l

/-- For the regex branch `"([^"]*)"`: given the characters after an opening
double quote, return the (greedy-up-to-the-first-closing-quote) content and
the rest after the closing quote, or `none` when no closing quote exists. -/
def splitQuoted : Str → Option (Str × Str)
  | [] => none
  | c :: rest =>
    if c = '"' then some ([], rest)
    else (splitQuoted rest).map (fun p => (c :: p.1, p.2))

/-- Match the value part `("([^"]*)"|(\S+))` of the token regex at the
current position: the quoted alternative is tried first, then a maximal
nonempty run of non-whitespace characters.  Returns the captured value
(`group(3)` if quoted else `group(4)`) and the remaining input. -/
def matchValue (l : Str) : Option (Str × Str) :=
  match l with
  | [] => none
  | c :: rest =>
    if c = '"' then
      match splitQuoted rest with
      | some (content, rest2) => some (content, rest2)
      | none =>
        -- no closing quote: the `\S+` alternative matches starting at `"`
        let v := (c :: rest).takeWhile (fun d => !isSpaceChar d)
        some (v, (c :: rest).drop v.length)
    else if isSpaceChar c then none
    else
      let v := (c :: rest).takeWhile (fun d => !isSpaceChar d)
      some (v, (c :: rest).drop v.length)

/-- One step of `re.finditer(r'(\w+)=("([^"]*)"|(\S+))', line)` scanning.
At each position: a match needs a maximal nonempty `\w+` run followed by
`=` and a value.  (When the attempt at the start of a word run fails, every
attempt at a later position inside the same run fails identically, because
the run ends at the same character; so the scanner may skip the whole run,
which is what this definition does.)  The fuel argument only serves
termination; one unit is spent per consumed character or more. -/
def scanTokensAux : ℕ → Str → List (Str × Str)
  | 0, _ => []
  | _ + 1, [] => []
  | fuel + 1, c :: rest =>
    if isWordChar c then
      let w := (c :: rest).takeWhile isWordChar
      let after := (c :: rest).drop w.length
      match after with
      | '=' :: rest2 =>
        match matchValue rest2 with
        | some (v, rest3) => (w, v) :: scanTokensAux fuel rest3
        | none => scanTokensAux fuel after
      | _ => scanTokensAux fuel after
    else scanTokensAux fuel rest

/-- All non-overlapping `key=value` matches of the token regex, left to
right, as in `re.finditer` (feature_extractor.py lines 92-94). -/
def scanTokens (l : Str) : List (Str × Str) := scanTokensAux l.length l

def digitsToNat (ds : Str) : ℕ :=
  ds.foldl (fun a c => a * 10 + (c.toNat - 48)) 0

/-- Python `int(value)`: optional surrounding whitespace, optional sign,
then a nonempty digit run; anything else raises `ValueError` (modelled as
`Except.error`).  (PEP 515 underscore grouping is not modelled; no input
in this development uses it.) -/
def pyInt (s : Str) : Except Unit ℤ :=
  let t := pyStrip s
  let core : Str × Bool :=
    match t with
    | '+' :: rest => (rest, false)
    | '-' :: rest => (rest, true)
    | _ => (t, false)
  if !core.1.isEmpty && core.1.all Char.isDigit then
    .ok (if core.2 then -(digitsToNat core.1 : ℤ) else (digitsToNat core.1 : ℤ))
  else .error ()

/-- The `SyscallRecord` dataclass (feature_extractor.py lines 64-83),
field for field, with the same defaults. -/
structure SyscallRecord where
  timestamp : Str := []
  syscall : Str := []
  pid : ℤ := 0
  tid : ℤ := 0
  uid : ℤ := 0
  comm : Str := []
  path : Str := []
  fd : ℤ := -1
  flags : Str := []
  count : ℤ := 0
  actual : ℤ := 0
  family : Str := []
  ip : Str := []
  port : ℤ := 0
  child_pid : ℤ := 0
  clone_type : Str := []
  prot : Str := []
  raw_line : Str := []
deriving DecidableEq

def tsKey : Str := "ts".toList
def syscallKey : Str := "syscall".toList
def pidKey : Str := "pid".toList
def tidKey : Str := "tid".toList
def uidKey : Str := "uid".toList
def commKey : Str := "comm".toList
def pathKey : Str := "path".toList
def fdKey : Str := "fd".toList
def flagsKey : Str := "flags".toList
def countKey : Str := "count".toList
def actualKey : Str := "actual".toList
def familyKey : Str := "family".toList
def ipKey : Str := "ip".toList
def portKey : Str := "port".toList
def childPidKey : Str := "child_pid".toList
def typeKey : Str := "type".toList
def protKey : Str := "prot".toList

/-- The `if key == ... / elif key == ...` chain of `parse_syscall_line`
(lines 98-131).  Integer-typed fields go through `int(value)`, whose
`ValueError` propagates (there is no `try`/`except` in the source). -/
def applyToken (r : SyscallRecord) (kv : Str × Str) : Except Unit SyscallRecord :=
  let key := kv.1
  let value := kv.2
  if key = tsKey then .ok { r with timestamp := value }
  else if key = syscallKey then .ok { r with syscall := value }
  else if key = pidKey then do .ok { r with pid := (← pyInt value) }
  else if key = tidKey then do .ok { r with tid := (← pyInt value) }
  else if key = uidKey then do .ok { r with uid := (← pyInt value) }
  else if key = commKey then .ok { r with comm := value }
  else if key = pathKey then .ok { r with path := value }
  else if key = fdKey then do .ok { r with fd := (← pyInt value) }
  else if key = flagsKey then .ok { r with flags := value }
  else if key = countKey then do .ok { r with count := (← pyInt value) }
  else if key = actualKey then do .ok { r with actual := (← pyInt value) }
  else if key = familyKey then .ok { r with family := value }
  else if key = ipKey then .ok { r with ip := value }
  else if key = portKey then do .ok { r with port := (← pyInt value) }
  else if key = childPidKey then do .ok { r with child_pid := (← pyInt value) }
  else if key = typeKey then .ok { r with clone_type := value }
  else if key = protKey then .ok { r with prot := value }
  else .ok r

/-- `parse_syscall_line` (feature_extractor.py lines 86-133).  Comment and
blank lines yield no record; otherwise every `key=value` token is applied
in order; the record is returned only when its syscall name is nonempty.
An uncaught `ValueError` from `int()` is `Except.error`. -/
def parse_syscall_line (line : Str) : Except Unit (Option SyscallRecord) :=
  if lineSkipped line then .ok none
  else do
    let r ← (scanTokens line).foldlM applyToken { raw_line := line }
    .ok (if r.syscall.isEmpty then none else some r)

def startsWithS (p s : Str) : Bool := p.isPrefixOf s
def endsWithS (p s : Str) : Bool := p.isSuffixOf s

/-- `re.search` of a literal: the pattern occurs somewhere in `s`. -/
def containsS (p s : Str) : Bool := s.tails.any (fun t => startsWithS p t)

/-- `re.search` of `p.*q`: an occurrence of `p` followed (at or after its
end) by an occurrence of `q`. -/
def seqContainsS (p q s : Str) : Bool :=
  s.tails.any (fun t => startsWithS p t && containsS q (t.drop p.length))

-- Literal pieces of the THREAD_PATTERNS regexes (feature_extractor.py
-- lines 12-34).  Each table regex is start-anchored via `re.match`; for
-- these regexes a match at position 0 exists iff the string starts with
-- one of the listed literal alternatives (a trailing `.*` never
-- constrains an anchored, existence-only match).
def patOkhttp : Str := "OkHttp".toList
def patOkhttpTask : Str := "OkHttp TaskRunn".toList
def patRxCached : Str := "RxCached".toList
def patRxComputation : Str := "RxComputation".toList
def patRxIo : Str := "RxIO".toList
def patRxSingle : Str := "RxSingle".toList
def patRxNewThread : Str := "RxNewThread".toList
def patRxScheduler : Str := "RxScheduler".toList
def patRxCachedThreadS : Str := "RxCachedThreadS".toList
def patDefaultDispatch : Str := "DefaultDispatch".toList
def patWMtask : Str := "WM.task".toList
def patAndroidxWork : Str := "androidx.work".toList
def patArchDisk : Str := "arch_disk_io".toList
def patGlideU : Str := "Glide".toList
def patGlideL : Str := "glide".toList
def patGlideSource : Str := "glide-source-th".toList
def patGlideDisk : Str := "glide-disk-cach".toList
def patCoilU : Str := "Coil".toList
def patCoilL : Str := "coil".toList
def patFrescoU : Str := "Fresco".toList
def patFrescoL : Str := "fresco".toList
def patBinder : Str := "binder:".toList
def patAsyncTask : Str := "AsyncTask".toList
def patPool : Str := "pool-".toList
def patThreadMid : Str := "-thread-".toList
def patExoPlayer : Str := "ExoPlayer".toList
def patFlutterWorker : Str := "flutter-worker-".toList
def patDartWorker : Str := "DartWorker".toList
def patRenderThread : Str := "RenderThread".toList

def rmatch_okhttp (s : Str) : Bool := startsWithS patOkhttp s
def rmatch_okhttp_task (s : Str) : Bool := startsWithS patOkhttpTask s
def rmatch_rxjava (s : Str) : Bool :=
  startsWithS patRxCached s || startsWithS patRxComputation s || startsWithS patRxIo s ||
  startsWithS patRxSingle s || startsWithS patRxNewThread s || startsWithS patRxScheduler s
def rmatch_rxjava_cached (s : Str) : Bool := startsWithS patRxCachedThreadS s
def rmatch_coroutines (s : Str) : Bool := startsWithS patDefaultDispatch s
def rmatch_workmanager (s : Str) : Bool := startsWithS patWMtask s
def rmatch_workmanager_alt (s : Str) : Bool := startsWithS patAndroidxWork s
def rmatch_room_io (s : Str) : Bool := startsWithS patArchDisk s
def rmatch_glide (s : Str) : Bool := startsWithS patGlideU s || startsWithS patGlideL s
def rmatch_glide_source (s : Str) : Bool := startsWithS patGlideSource s
def rmatch_glide_disk (s : Str) : Bool := startsWithS patGlideDisk s
def rmatch_coil (s : Str) : Bool := startsWithS patCoilU s || startsWithS patCoilL s
def rmatch_fresco (s : Str) : Bool := startsWithS patFrescoU s || startsWithS patFrescoL s
def rmatch_binder (s : Str) : Bool := startsWithS patBinder s
def rmatch_async_task (s : Str) : Bool := startsWithS patAsyncTask s
/-- `re.match(r"pool-\d+-thread-\d+", s)`: `pool-`, a nonempty digit run,
`-thread-`, a nonempty digit run (greediness cannot matter because `-` is
not a digit). -/
def rmatch_thread_pool (s : Str) : Bool :=
  startsWithS patPool s &&
    (let t := s.drop 5
     let d1 := t.takeWhile Char.isDigit
     !d1.isEmpty && startsWithS patThreadMid (t.drop d1.length) &&
       !((t.drop (d1.length + 8)).takeWhile Char.isDigit).isEmpty)
def rmatch_exoplayer (s : Str) : Bool := startsWithS patExoPlayer s
def rmatch_flutter (s : Str) : Bool :=
  startsWithS patFlutterWorker s || startsWithS patDartWorker s
def rmatch_render_thread (s : Str) : Bool := startsWithS patRenderThread s

/-- The `THREAD_PATTERNS` table (feature_extractor.py lines 12-34):
category identifier paired with its recognizer, in source order. -/
def THREAD_PATTERNS : List (String × (Str → Bool)) :=
  [ ("okhttp", rmatch_okhttp),
    ("okhttp_task", rmatch_okhttp_task),
    ("rxjava", rmatch_rxjava),
    ("rxjava_cached", rmatch_rxjava_cached),
    ("coroutines", rmatch_coroutines),
    ("workmanager", rmatch_workmanager),
    ("workmanager_alt", rmatch_workmanager_alt),
    ("room_io", rmatch_room_io),
    ("glide", rmatch_glide),
    ("glide_source", rmatch_glide_source),
    ("glide_disk", rmatch_glide_disk),
    ("coil", rmatch_coil),
    ("fresco", rmatch_fresco),
    ("binder", rmatch_binder),
    ("async_task", rmatch_async_task),
    ("thread_pool", rmatch_thread_pool),
    ("exoplayer", rmatch_exoplayer),
    ("flutter", rmatch_flutter),
    ("render_thread", rmatch_render_thread) ]

-- Literal pieces of the PATH_PATTERNS regexes (lines 36-61), applied via
-- `re.search` (occurrence anywhere; `$` anchors at the end).
def sfxDbWal : Str := ".db-wal".toList
def sfxDbShm : Str := ".db-shm".toList
def sfxDbJournal : Str := ".db-journal".toList
def subWorkdb : Str := "androidx.work.workdb".toList
def subDatastore : Str := "datastore".toList
def sfxPrefsPb : Str := ".preferences_pb".toList
def subOkHttpCache : Str := "okHttpCache".toList
def subOkhttpCacheDir : Str := "/cache/okhttp/".toList
def subOkhttpLow : Str := "okhttp".toList
def subJournal : Str := "journal".toList
def subGlideLow : Str := "glide".toList
def subImdc : Str := "image_manager_disk_cache".toList
def subCoil : Str := "coil".toList
def subImageLoader : Str := "image_loader".toList
def subCoilDisk : Str := "coil_disk_cache".toList
def subCoil3Disk : Str := "coil3_disk_cache".toList
def subFresco : Str := "fresco".toList
def subImagepipeline : Str := "imagepipeline".toList
def sfxDb : Str := ".db".toList
def sfxSqlite : Str := ".sqlite".toList
def sfxSqliteJournal : Str := ".sqlite-journal".toList
def subSharedPrefs : Str := "shared_prefs".toList
def sfxXml : Str := ".xml".toList
def sfxSo : Str := ".so".toList
def subCacerts : Str := "cacerts".toList
def subHTTPU : Str := "HTTP".toList
def subCacheU : Str := "Cache".toList
def subCacheL : Str := "cache".toList

def psearch_room_wal (s : Str) : Bool := endsWithS sfxDbWal s
def psearch_room_shm (s : Str) : Bool := endsWithS sfxDbShm s
def psearch_room_journal (s : Str) : Bool := endsWithS sfxDbJournal s
def psearch_workmanager_db (s : Str) : Bool := containsS subWorkdb s
/-- `datastore.*\.preferences_pb$`: ends with `.preferences_pb` (15 chars)
and an occurrence of `datastore` fits before that suffix. -/
def psearch_datastore (s : Str) : Bool :=
  containsS subDatastore (s.take (s.length - 15)) && endsWithS sfxPrefsPb s
def psearch_okhttp_cache (s : Str) : Bool := containsS subOkHttpCache s
def psearch_okhttp_cache_dir (s : Str) : Bool := containsS subOkhttpCacheDir s
def psearch_okhttp_journal (s : Str) : Bool := seqContainsS subOkhttpLow subJournal s
def psearch_glide_cache (s : Str) : Bool := containsS subGlideLow s || containsS subImdc s
def psearch_glide_journal (s : Str) : Bool := seqContainsS subImdc subJournal s
def psearch_coil_cache (s : Str) : Bool := containsS subCoil s || containsS subImageLoader s
def psearch_coil_cache_v3 (s : Str) : Bool := containsS subCoilDisk s || containsS subCoil3Disk s
def psearch_coil_journal (s : Str) : Bool := seqContainsS subCoil subJournal s
def psearch_fresco_cache (s : Str) : Bool := containsS subFresco s || containsS subImagepipeline s
def psearch_database (s : Str) : Bool := endsWithS sfxDb s
def psearch_sqlite (s : Str) : Bool := endsWithS sfxSqlite s
def psearch_sqlite_journal (s : Str) : Bool := endsWithS sfxSqliteJournal s
/-- `shared_prefs.*\.xml$`: ends with `.xml` and an occurrence of
`shared_prefs` fits before that suffix. -/
def psearch_shared_prefs (s : Str) : Bool :=
  containsS subSharedPrefs (s.take (s.length - 4)) && endsWithS sfxXml s
def psearch_native_lib (s : Str) : Bool := endsWithS sfxSo s
def psearch_cacerts (s : Str) : Bool := containsS subCacerts s
def psearch_http_cache (s : Str) : Bool :=
  seqContainsS subHTTPU subCacheU s || seqContainsS subHTTPU subCacheL s

/-- The `PATH_PATTERNS` table (feature_extractor.py lines 36-61):
category identifier paired with its recognizer, in source order. -/
def PATH_PATTERNS : List (String × (Str → Bool)) :=
  [ ("room_wal", psearch_room_wal),
    ("room_shm", psearch_room_shm),
    ("room_journal", psearch_room_journal),
    ("workmanager_db", psearch_workmanager_db),
    ("datastore", psearch_datastore),
    ("okhttp_cache", psearch_okhttp_cache),
    ("okhttp_cache_dir", psearch_okhttp_cache_dir),
    ("okhttp_journal", psearch_okhttp_journal),
    ("glide_cache", psearch_glide_cache),
    ("glide_journal", psearch_glide_journal),
    ("coil_cache", psearch_coil_cache),
    ("coil_cache_v3", psearch_coil_cache_v3),
    ("coil_journal", psearch_coil_journal),
    ("fresco_cache", psearch_fresco_cache),
    ("database", psearch_database),
    ("sqlite", psearch_sqlite),
    ("sqlite_journal", psearch_sqlite_journal),
    ("shared_prefs", psearch_shared_prefs),
    ("native_lib", psearch_native_lib),
    ("cacerts", psearch_cacerts),
    ("http_cache", psearch_http_cache) ]

/-- The `AppFeatures` dataclass (feature_extractor.py lines 148-224),
field for field, in declaration order, with the same defaults.  The three
underscore-prefixed transient working sets are modelled as lists in
first-insertion order. -/
structure AppFeatures where
  package : Str := []
  total_syscalls : ℤ := 0
  trace_duration_sec : ℚ := 0
  has_okhttp_thread : Bool := false
  has_okhttp_task_thread : Bool := false
  has_rxjava_thread : Bool := false
  has_rxjava_cached_thread : Bool := false
  has_coroutine_thread : Bool := false
  has_workmanager_thread : Bool := false
  has_workmanager_alt_thread : Bool := false
  has_room_io_thread : Bool := false
  has_glide_thread : Bool := false
  has_glide_source_thread : Bool := false
  has_glide_disk_thread : Bool := false
  has_coil_thread : Bool := false
  has_fresco_thread : Bool := false
  has_exoplayer_thread : Bool := false
  has_flutter_thread : Bool := false
  has_async_task_thread : Bool := false
  has_room_wal : Bool := false
  has_room_shm : Bool := false
  has_room_journal : Bool := false
  has_workmanager_db : Bool := false
  has_datastore : Bool := false
  has_okhttp_cache : Bool := false
  has_okhttp_cache_dir : Bool := false
  has_okhttp_journal : Bool := false
  has_glide_cache : Bool := false
  has_glide_journal : Bool := false
  has_coil_cache : Bool := false
  has_coil_cache_v3 : Bool := false
  has_coil_journal : Bool := false
  has_fresco_cache : Bool := false
  has_cacerts_access : Bool := false
  has_http_cache : Bool := false
  has_ipv4_connect : Bool := false
  has_ipv6_connect : Bool := false
  num_port_443_connects : ℤ := 0
  num_unique_threads : ℤ := 0
  num_threads_spawned : ℤ := 0
  num_databases : ℤ := 0
  num_shared_prefs : ℤ := 0
  num_native_libs : ℤ := 0
  num_tcp_sockets : ℤ := 0
  num_udp_sockets : ℤ := 0
  num_unix_sockets : ℤ := 0
  num_network_connects : ℤ := 0
  num_unique_ips : ℤ := 0
  num_openat : ℤ := 0
  num_read : ℤ := 0
  num_write : ℤ := 0
  num_close : ℤ := 0
  num_clone : ℤ := 0
  num_mmap : ℤ := 0
  num_socket : ℤ := 0
  num_connect : ℤ := 0
  total_bytes_read : ℤ := 0
  total_bytes_written : ℤ := 0
  syscalls_per_second : ℚ := 0
  threads_per_second : ℚ := 0
  _thread_names : List Str := []
  _file_paths : List Str := []
  _ip_addresses : List Str := []
deriving DecidableEq

-- String constants compared against record fields in `extract_features`.
def sOpenat : Str := "openat".toList
def sOpen : Str := "open".toList
def sRead : Str := "read".toList
def sWrite : Str := "write".toList
def sClose : Str := "close".toList
def sClone : Str := "clone".toList
def sMmap : Str := "mmap".toList
def sSocket : Str := "socket".toList
def sConnect : Str := "connect".toList
def sThread : Str := "thread".toList
def sIpv4 : Str := "ipv4".toList
def sIpv6 : Str := "ipv6".toList
def sUnix : Str := "unix".toList

/-- The local state of one `extract_features` call: the vector under
construction plus the four distinct-value sets and the (unused after the
loop) first/last timestamps (lines 231-243). -/
structure ExtractState where
  features : AppFeatures
  thread_names : List Str := []
  file_paths : List Str := []
  ip_addresses : List Str := []
  database_files : List Str := []
  first_ts : Option Str := none
  last_ts : Option Str := none
deriving DecidableEq

/-- `set.add` on a set modelled as a duplicate-free list. -/
def insertSet (s : List Str) (x : Str) : List Str :=
  if x ∈ s then s else s ++ [x]

/-- Lines 247-250: track first/last nonempty timestamp. -/
def tsSeen (st : ExtractState) (r : SyscallRecord) : ExtractState :=
  if r.timestamp.isEmpty then st
  else { st with
         first_ts := if st.first_ts = none then some r.timestamp else st.first_ts,
         last_ts := some r.timestamp }

/-- Lines 252-253: collect nonempty thread/command names. -/
def commSeen (st : ExtractState) (r : SyscallRecord) : ExtractState :=
  if r.comm.isEmpty then st
  else { st with thread_names := insertSet st.thread_names r.comm }

/-- Lines 255-256: collect nonempty paths. -/
def pathSeen (st : ExtractState) (r : SyscallRecord) : ExtractState :=
  if r.path.isEmpty then st
  else { st with file_paths := insertSet st.file_paths r.path }

-- The per-record `if syscall == ... / elif ...` dispatch (lines 258-302),
-- one definition per branch.

/-- Lines 260-264 (`openat`/`open`). -/
def openBranch (st : ExtractState) (r : SyscallRecord) : ExtractState :=
  let st := { st with features.num_openat := st.features.num_openat + 1 }
  if endsWithS sfxDb r.path then
    { st with database_files := insertSet st.database_files r.path }
  else st

/-- Lines 266-268 (`read`). -/
def readBranch (st : ExtractState) (r : SyscallRecord) : ExtractState :=
  { st with features.num_read := st.features.num_read + 1,
            features.total_bytes_read := st.features.total_bytes_read + r.actual }

/-- Lines 270-272 (`write`). -/
def writeBranch (st : ExtractState) (r : SyscallRecord) : ExtractState :=
  { st with features.num_write := st.features.num_write + 1,
            features.total_bytes_written := st.features.total_bytes_written + r.actual }

/-- Lines 274-275 (`close`). -/
def closeBranch (st : ExtractState) (r : SyscallRecord) : ExtractState :=
  { st with features.num_close := st.features.num_close + 1 }

/-- Lines 277-280 (`clone`). -/
def cloneBranch (st : ExtractState) (r : SyscallRecord) : ExtractState :=
  let st := { st with features.num_clone := st.features.num_clone + 1 }
  if r.clone_type = sThread then
    { st with features.num_threads_spawned := st.features.num_threads_spawned + 1 }
  else st

/-- Lines 282-283 (`mmap`). -/
def mmapBranch (st : ExtractState) (r : SyscallRecord) : ExtractState :=
  { st with features.num_mmap := st.features.num_mmap + 1 }

/-- Lines 285-290 (`socket`). -/
def socketBranch (st : ExtractState) (r : SyscallRecord) : ExtractState :=
  let st := { st with features.num_socket := st.features.num_socket + 1 }
  if r.family = sIpv4 ∨ r.family = sIpv6 then
    { st with features.num_tcp_sockets := st.features.num_tcp_sockets + 1 }
  else if r.family = sUnix then
    { st with features.num_unix_sockets := st.features.num_unix_sockets + 1 }
  else st

/-- Lines 292-302 (`connect`). -/
def connectBranch (st : ExtractState) (r : SyscallRecord) : ExtractState :=
  let st := { st with features.num_connect := st.features.num_connect + 1,
                      features.num_network_connects := st.features.num_network_connects + 1 }
  let st := if r.ip.isEmpty then st
            else { st with ip_addresses := insertSet st.ip_addresses r.ip }
  let st := if r.family = sIpv4 then { st with features.has_ipv4_connect := true }
            else if r.family = sIpv6 then { st with features.has_ipv6_connect := true }
            else st
  if r.port = 443 then
    { st with features.num_port_443_connects := st.features.num_port_443_connects + 1 }
  else st

/-- The branch selection of lines 258-302. -/
def dispatchStep (st : ExtractState) (r : SyscallRecord) : ExtractState :=
  if r.syscall = sOpenat ∨ r.syscall = sOpen then openBranch st r
  else if r.syscall = sRead then readBranch st r
  else if r.syscall = sWrite then writeBranch st r
  else if r.syscall = sClose then closeBranch st r
  else if r.syscall = sClone then cloneBranch st r
  else if r.syscall = sMmap then mmapBranch st r
  else if r.syscall = sSocket then socketBranch st r
  else if r.syscall = sConnect then connectBranch st r
  else st

/-- One iteration of the phase-1 streaming loop (lines 246-302). -/
def phase1step (st : ExtractState) (r : SyscallRecord) : ExtractState :=
  dispatchStep (pathSeen (commSeen (tsSeen st r) r) r) r

-- Thread-name classification (lines 308-348): each `if re.match(...)`
-- block, one definition per category, applied in source order.  Matching
-- is a chain of independent `if`s in the source (no `elif`), so each
-- category is tested regardless of the others.

def set_okhttp (f : AppFeatures) (tn : Str) : AppFeatures :=
  if rmatch_okhttp tn then { f with has_okhttp_thread := true } else f
def set_okhttp_task (f : AppFeatures) (tn : Str) : AppFeatures :=
  if rmatch_okhttp_task tn then { f with has_okhttp_task_thread := true } else f
def set_rxjava (f : AppFeatures) (tn : Str) : AppFeatures :=
  if rmatch_rxjava tn then { f with has_rxjava_thread := true } else f
def set_rxjava_cached (f : AppFeatures) (tn : Str) : AppFeatures :=
  if rmatch_rxjava_cached tn then { f with has_rxjava_cached_thread := true } else f
def set_coroutines (f : AppFeatures) (tn : Str) : AppFeatures :=
  if rmatch_coroutines tn then { f with has_coroutine_thread := true } else f
def set_workmanager (f : AppFeatures) (tn : Str) : AppFeatures :=
  if rmatch_workmanager tn then { f with has_workmanager_thread := true } else f
def set_workmanager_alt (f : AppFeatures) (tn : Str) : AppFeatures :=
  if rmatch_workmanager_alt tn then { f with has_workmanager_alt_thread := true } else f
def set_room_io (f : AppFeatures) (tn : Str) : AppFeatures :=
  if rmatch_room_io tn then { f with has_room_io_thread := true } else f
def set_glide (f : AppFeatures) (tn : Str) : AppFeatures :=
  if rmatch_glide tn then { f with has_glide_thread := true } else f
def set_glide_source (f : AppFeatures) (tn : Str) : AppFeatures :=
  if rmatch_glide_source tn then { f with has_glide_source_thread := true } else f
def set_glide_disk (f : AppFeatures) (tn : Str) : AppFeatures :=
  if rmatch_glide_disk tn then { f with has_glide_disk_thread := true } else f
def set_coil (f : AppFeatures) (tn : Str) : AppFeatures :=
  if rmatch_coil tn then { f with has_coil_thread := true } else f
def set_fresco (f : AppFeatures) (tn : Str) : AppFeatures :=
  if rmatch_fresco tn then { f with has_fresco_thread := true } else f
def set_exoplayer (f : AppFeatures) (tn : Str) : AppFeatures :=
  if rmatch_exoplayer tn then { f with has_exoplayer_thread := true } else f
def set_flutter (f : AppFeatures) (tn : Str) : AppFeatures :=
  if rmatch_flutter tn then { f with has_flutter_thread := true } else f
def set_async_task (f : AppFeatures) (tn : Str) : AppFeatures :=
  if rmatch_async_task tn then { f with has_async_task_thread := true } else f

/-- The whole thread-name classification body for one distinct name
(lines 308-348), in source order.  Note the table entries `binder`,
`thread_pool` and `render_thread` have no corresponding block in the
source and hence none here. -/
def threadStep (f : AppFeatures) (tn : Str) : AppFeatures :=
  let f := set_okhttp f tn
  let f := set_okhttp_task f tn
  let f := set_rxjava f tn
  let f := set_rxjava_cached f tn
  let f := set_coroutines f tn
  let f := set_workmanager f tn
  let f := set_workmanager_alt f tn
  let f := set_room_io f tn
  let f := set_glide f tn
  let f := set_glide_source f tn
  let f := set_glide_disk f tn
  let f := set_coil f tn
  let f := set_fresco f tn
  let f := set_exoplayer f tn
  let f := set_flutter f tn
  set_async_task f tn

-- Path classification (lines 350-394), one definition per `if re.search`
-- block, in source order.  The table entries `database`, `sqlite` and
-- `sqlite_journal` have no block in the source loop.

def pset_room_wal (f : AppFeatures) (p : Str) : AppFeatures :=
  if psearch_room_wal p then { f with has_room_wal := true } else f
def pset_room_shm (f : AppFeatures) (p : Str) : AppFeatures :=
  if psearch_room_shm p then { f with has_room_shm := true } else f
def pset_room_journal (f : AppFeatures) (p : Str) : AppFeatures :=
  if psearch_room_journal p then { f with has_room_journal := true } else f
def pset_workmanager_db (f : AppFeatures) (p : Str) : AppFeatures :=
  if psearch_workmanager_db p then { f with has_workmanager_db := true } else f
def pset_datastore (f : AppFeatures) (p : Str) : AppFeatures :=
  if psearch_datastore p then { f with has_datastore := true } else f
def pset_okhttp_cache (f : AppFeatures) (p : Str) : AppFeatures :=
  if psearch_okhttp_cache p then { f with has_okhttp_cache := true } else f
def pset_okhttp_cache_dir (f : AppFeatures) (p : Str) : AppFeatures :=
  if psearch_okhttp_cache_dir p then { f with has_okhttp_cache_dir := true } else f
def pset_okhttp_journal (f : AppFeatures) (p : Str) : AppFeatures :=
  if psearch_okhttp_journal p then { f with has_okhttp_journal := true } else f
def pset_glide_cache (f : AppFeatures) (p : Str) : AppFeatures :=
  if psearch_glide_cache p then { f with has_glide_cache := true } else f
def pset_glide_journal (f : AppFeatures) (p : Str) : AppFeatures :=
  if psearch_glide_journal p then { f with has_glide_journal := true } else f
def pset_coil_cache (f : AppFeatures) (p : Str) : AppFeatures :=
  if psearch_coil_cache p then { f with has_coil_cache := true } else f
def pset_coil_cache_v3 (f : AppFeatures) (p : Str) : AppFeatures :=
  if psearch_coil_cache_v3 p then { f with has_coil_cache_v3 := true } else f
def pset_coil_journal (f : AppFeatures) (p : Str) : AppFeatures :=
  if psearch_coil_journal p then { f with has_coil_journal := true } else f
def pset_fresco_cache (f : AppFeatures) (p : Str) : AppFeatures :=
  if psearch_fresco_cache p then { f with has_fresco_cache := true } else f
def pset_cacerts (f : AppFeatures) (p : Str) : AppFeatures :=
  if psearch_cacerts p then { f with has_cacerts_access := true } else f
def pset_http_cache (f : AppFeatures) (p : Str) : AppFeatures :=
  if psearch_http_cache p then { f with has_http_cache := true } else f
def pset_shared_prefs (f : AppFeatures) (p : Str) : AppFeatures :=
  if psearch_shared_prefs p then { f with num_shared_prefs := f.num_shared_prefs + 1 } else f
def pset_native_lib (f : AppFeatures) (p : Str) : AppFeatures :=
  if psearch_native_lib p then { f with num_native_libs := f.num_native_libs + 1 } else f

/-- The whole path classification body for one distinct path
(lines 350-394), in source order. -/
def pathStep (f : AppFeatures) (p : Str) : AppFeatures :=
  let f := pset_room_wal f p
  let f := pset_room_shm f p
  let f := pset_room_journal f p
  let f := pset_workmanager_db f p
  let f := pset_datastore f p
  let f := pset_okhttp_cache f p
  let f := pset_okhttp_cache_dir f p
  let f := pset_okhttp_journal f p
  let f := pset_glide_cache f p
  let f := pset_glide_journal f p
  let f := pset_coil_cache f p
  let f := pset_coil_cache_v3 f p
  let f := pset_coil_journal f p
  let f := pset_fresco_cache f p
  let f := pset_cacerts f p
  let f := pset_http_cache f p
  let f := pset_shared_prefs f p
  pset_native_lib f p

/-- Phase 2a: `for thread_name in thread_names` (line 308). -/
def classifyThreads (f : AppFeatures) (names : List Str) : AppFeatures :=
  names.foldl threadStep f

/-- Phase 2b: `for path in file_paths` (line 350). -/
def classifyPaths (f : AppFeatures) (paths : List Str) : AppFeatures :=
  paths.foldl pathStep f

/-- Lines 304-306: expose the transient working sets on the vector. -/
def attachSets (f : AppFeatures) (st : ExtractState) : AppFeatures :=
  { f with _thread_names := st.thread_names,
           _file_paths := st.file_paths,
           _ip_addresses := st.ip_addresses }

/-- Lines 396-398: the three cardinalities are the sizes of the
distinct-value sets. -/
def setCardinalities (f : AppFeatures) (st : ExtractState) : AppFeatures :=
  { f with num_unique_threads := (st.thread_names.length : ℤ),
           num_databases := (st.database_files.length : ℤ),
           num_unique_ips := (st.ip_addresses.length : ℤ) }

/-- Lines 400-404: `trace_duration_sec = total_syscalls / 100.0`, then
the two rates, guarded by `trace_duration_sec > 0`. -/
def setDurationAndRates (f : AppFeatures) : AppFeatures :=
  let f := { f with trace_duration_sec := (f.total_syscalls : ℚ) / 100 }
  if (0 : ℚ) < f.trace_duration_sec then
    { f with syscalls_per_second := (f.total_syscalls : ℚ) / f.trace_duration_sec,
             threads_per_second := (f.num_threads_spawned : ℚ) / f.trace_duration_sec }
  else f

/-- The non-empty path of `extract_features` (lines 236-406): streaming
tally, classification passes, cardinalities, duration and rates. -/
def extract_core (records : List SyscallRecord) (package : Str) : AppFeatures :=
  let features : AppFeatures := { package := package, total_syscalls := (records.length : ℤ) }
  let st := records.foldl phase1step { features := features }
  let f := attachSets st.features st
  let f := classifyThreads f st.thread_names
  let f := classifyPaths f st.file_paths
  setDurationAndRates (setCardinalities f st)

/-- `extract_features` (feature_extractor.py lines 227-406). -/
def extract_features (records : List SyscallRecord) (package : Str) : AppFeatures :=
  if records.isEmpty then { package := package }
  else extract_core records package

theorem extract_features_nil (pkg : Str) :
    extract_features [] pkg = { package := pkg } := rfl

theorem extract_features_cons (a : SyscallRecord) (l : List SyscallRecord) (pkg : Str) :
    extract_features (a :: l) pkg = extract_core (a :: l) pkg := rfl

/-- A Python attribute value as stored in `AppFeatures.__dict__`:
bool, int, float, string, or one of the transient string sets. -/
inductive PyVal where
  | vb (b : Bool)
  | vi (n : ℤ)
  | vq (x : ℚ)
  | vs (s : Str)
  | vset (l : List Str)
deriving DecidableEq

/-- `features.__dict__.items()`: the attribute names (as written in the
Python source) with their raw values, in dataclass declaration order,
which is the insertion order of a dataclass instance's `__dict__`. -/
def fieldEntries (f : AppFeatures) : List (String × PyVal) :=
  [ ("package", PyVal.vs f.package),
    ("total_syscalls", PyVal.vi f.total_syscalls),
    ("trace_duration_sec", PyVal.vq f.trace_duration_sec),
    ("has_okhttp_thread", PyVal.vb f.has_okhttp_thread),
    ("has_okhttp_task_thread", PyVal.vb f.has_okhttp_task_thread),
    ("has_rxjava_thread", PyVal.vb f.has_rxjava_thread),
    ("has_rxjava_cached_thread", PyVal.vb f.has_rxjava_cached_thread),
    ("has_coroutine_thread", PyVal.vb f.has_coroutine_thread),
    ("has_workmanager_thread", PyVal.vb f.has_workmanager_thread),
    ("has_workmanager_alt_thread", PyVal.vb f.has_workmanager_alt_thread),
    ("has_room_io_thread", PyVal.vb f.has_room_io_thread),
    ("has_glide_thread", PyVal.vb f.has_glide_thread),
    ("has_glide_source_thread", PyVal.vb f.has_glide_source_thread),
    ("has_glide_disk_thread", PyVal.vb f.has_glide_disk_thread),
    ("has_coil_thread", PyVal.vb f.has_coil_thread),
    ("has_fresco_thread", PyVal.vb f.has_fresco_thread),
    ("has_exoplayer_thread", PyVal.vb f.has_exoplayer_thread),
    ("has_flutter_thread", PyVal.vb f.has_flutter_thread),
    ("has_async_task_thread", PyVal.vb f.has_async_task_thread),
    ("has_room_wal", PyVal.vb f.has_room_wal),
    ("has_room_shm", PyVal.vb f.has_room_shm),
    ("has_room_journal", PyVal.vb f.has_room_journal),
    ("has_workmanager_db", PyVal.vb f.has_workmanager_db),
    ("has_datastore", PyVal.vb f.has_datastore),
    ("has_okhttp_cache", PyVal.vb f.has_okhttp_cache),
    ("has_okhttp_cache_dir", PyVal.vb f.has_okhttp_cache_dir),
    ("has_okhttp_journal", PyVal.vb f.has_okhttp_journal),
    ("has_glide_cache", PyVal.vb f.has_glide_cache),
    ("has_glide_journal", PyVal.vb f.has_glide_journal),
    ("has_coil_cache", PyVal.vb f.has_coil_cache),
    ("has_coil_cache_v3", PyVal.vb f.has_coil_cache_v3),
    ("has_coil_journal", PyVal.vb f.has_coil_journal),
    ("has_fresco_cache", PyVal.vb f.has_fresco_cache),
    ("has_cacerts_access", PyVal.vb f.has_cacerts_access),
    ("has_http_cache", PyVal.vb f.has_http_cache),
    ("has_ipv4_connect", PyVal.vb f.has_ipv4_connect),
    ("has_ipv6_connect", PyVal.vb f.has_ipv6_connect),
    ("num_port_443_connects", PyVal.vi f.num_port_443_connects),
    ("num_unique_threads", PyVal.vi f.num_unique_threads),
    ("num_threads_spawned", PyVal.vi f.num_threads_spawned),
    ("num_databases", PyVal.vi f.num_databases),
    ("num_shared_prefs", PyVal.vi f.num_shared_prefs),
    ("num_native_libs", PyVal.vi f.num_native_libs),
    ("num_tcp_sockets", PyVal.vi f.num_tcp_sockets),
    ("num_udp_sockets", PyVal.vi f.num_udp_sockets),
    ("num_unix_sockets", PyVal.vi f.num_unix_sockets),
    ("num_network_connects", PyVal.vi f.num_network_connects),
    ("num_unique_ips", PyVal.vi f.num_unique_ips),
    ("num_openat", PyVal.vi f.num_openat),
    ("num_read", PyVal.vi f.num_read),
    ("num_write", PyVal.vi f.num_write),
    ("num_close", PyVal.vi f.num_close),
    ("num_clone", PyVal.vi f.num_clone),
    ("num_mmap", PyVal.vi f.num_mmap),
    ("num_socket", PyVal.vi f.num_socket),
    ("num_connect", PyVal.vi f.num_connect),
    ("total_bytes_read", PyVal.vi f.total_bytes_read),
    ("total_bytes_written", PyVal.vi f.total_bytes_written),
    ("syscalls_per_second", PyVal.vq f.syscalls_per_second),
    ("threads_per_second", PyVal.vq f.threads_per_second),
    ("_thread_names", PyVal.vset f._thread_names),
    ("_file_paths", PyVal.vset f._file_paths),
    ("_ip_addresses", PyVal.vset f._ip_addresses) ]

/-- `key.startswith('_')` on an attribute name. -/
def keyHidden (k : String) : Bool :=
  match k.toList with
  | '_' :: _ => true
  | _ => false

/-- `features_to_dict` (lines 409-421): every non-underscore attribute in
`__dict__` order, with `bool` converted to `1`/`0` and every other value
passed through. -/
def features_to_dict (f : AppFeatures) : List (String × PyVal) :=
  (fieldEntries f).filterMap (fun kv =>
    if keyHidden kv.1 then none
    else some (kv.1, match kv.2 with
                     | PyVal.vb b => PyVal.vi (if b then 1 else 0)
                     | v => v))

/-- `get_feature_columns` (lines 424-432): the non-underscore attribute
names of a default-constructed `AppFeatures`, in `__dict__` order. -/
def get_feature_columns : List String :=
  ((fieldEntries {}).map Prod.fst).filter (fun k => !keyHidden k)

/-- A directory of trace files: file name paired with its lines, or
`none` when opening the file raises `IOError` (missing/unreadable). -/
abbrev FileSystem := List (Str × Option (List Str))

/-- `open(filepath)` under the `FileSystem` model. -/
def openFile (fs : FileSystem) (path : Str) : Except Unit (List Str) :=
  match fs.find? (fun e => e.1 = path) with
  | some (_, some lines) => .ok lines
  | _ => .error ()

/-- `parse_syscall_log` (lines 136-145): open the file (raising on a
missing/unreadable file), parse each line, keep line records; any raised
exception propagates. -/
def parse_syscall_log (fs : FileSystem) (path : Str) : Except Unit (List SyscallRecord) := do
  let lines ← openFile fs path
  lines.foldlM (fun acc line => do
    match ← parse_syscall_line line with
    | some r => pure (acc ++ [r])
    | none => pure acc) []

/-- Python `s.replace(sub, '')` for a nonempty `sub`: delete every
non-overlapping occurrence, left to right.  Fuel only serves
termination. -/
def removeAllAux : ℕ → Str → Str → Str
  | 0, _, s => s
  | _ + 1, _, [] => []
  | fuel + 1, sub, c :: rest =>
    if startsWithS sub (c :: rest) then
      removeAllAux fuel sub ((c :: rest).drop sub.length)
    else c :: removeAllAux fuel sub rest

def removeAll (sub s : Str) : Str := removeAllAux s.length sub s

/-- `os.path.basename`. -/
def basenameS (p : Str) : Str := (p.reverse.takeWhile (fun c => c ≠ '/')).reverse

def sfxSyscallLog : Str := ".syscall.log".toList
def sfxLog : Str := ".log".toList

/-- `process_trace_file` (lines 435-443) with the default empty `package`
argument: derive the package name from the file name, parse, extract. -/
def process_trace_file (fs : FileSystem) (trace_path : Str) : Except Unit AppFeatures := do
  let package := removeAll sfxLog (removeAll sfxSyscallLog (basenameS trace_path))
  let records ← parse_syscall_log fs trace_path
  .ok (extract_features records package)

/-- Lexicographic comparison of file names, as `sorted()` uses. -/
def strLe : Str → Str → Bool
  | [], _ => true
  | _ :: _, [] => false
  | a :: as, b :: bs => if a < b then true else if a = b then strLe as bs else false

def insertSorted (x : Str) : List Str → List Str
  | [] => [x]
  | y :: ys => if strLe x y then x :: y :: ys else y :: insertSorted x ys

/-- A stable sort implementing Python's `sorted` on file names. -/
def sortStr (l : List Str) : List Str := l.foldr insertSorted []

/-- `process_all_traces` (lines 446-469): glob `*.log`, sort file names,
process each file in order, collect the exported row for each.  The
result is the list of CSV rows; an exception raised while processing any
file propagates (there is no `try`/`except`), so no rows are produced.
An empty glob returns before writing anything. -/
def process_all_traces (fs : FileSystem) : Except Unit (List (List (String × PyVal))) :=
  let trace_files := (fs.map Prod.fst).filter (fun n => endsWithS sfxLog n)
  if trace_files.isEmpty then .ok []
  else do
    let sorted := sortStr trace_files
    let all_features ← sorted.mapM (fun p => do
      let features ← process_trace_file fs p
      pure (features_to_dict features))
    .ok all_features

-- IEEE-754 binary64 model for the duration/rate computation
-- (lines 400-404).  The main embedding treats Python floats as exact
-- rationals; `f64round` captures the double rounding (round to nearest,
-- ties to even) that the Python interpreter actually performs, for
-- magnitudes far away from overflow and subnormal territory.

/-- `(a/b) * 2^(-e)` as a numerator/denominator pair of naturals. -/
def scalePow (a b : ℕ) (e : ℤ) : ℕ × ℕ :=
  if 0 ≤ e then (a, b * 2 ^ e.toNat) else (a * 2 ^ (-e).toNat, b)

/-- Is `2^52 ≤ (a/b) * 2^(-e) < 2^53`? -/
def inRange53 (a b : ℕ) (e : ℤ) : Bool :=
  let s := scalePow a b e
  decide (2 ^ 52 * s.2 ≤ s.1) && decide (s.1 < 2 ^ 53 * s.2)

/-- `Nat.log2` via structural recursion on a fuel bound. -/
def natLog2Aux : ℕ → ℕ → ℕ
  | 0, _ => 0
  | fuel + 1, n => if 2 ≤ n then natLog2Aux fuel (n / 2) + 1 else 0

def natLog2 (n : ℕ) : ℕ := natLog2Aux n n

/-- The exponent placing `a/b` in the binade of 53-bit significands. -/
def pickExp (a b : ℕ) : ℤ :=
  let d : ℤ := (natLog2 a : ℤ) - (natLog2 b : ℤ)
  if inRange53 a b (d - 53) then d - 53
  else if inRange53 a b (d - 52) then d - 52
  else d - 51

/-- Round `x/y` to the nearest integer, ties to even. -/
def roundHalfEven (x y : ℕ) : ℕ :=
  let q := x / y
  let r := x % y
  if 2 * r < y then q
  else if 2 * r > y then q + 1
  else if q % 2 = 0 then q else q + 1

/-- The IEEE-754 binary64 value nearest to the rational `v` (round to
nearest, ties to even; no overflow/subnormal handling, which cannot occur
for the magnitudes used here). -/
def f64round (v : ℚ) : ℚ :=
  if v = 0 then 0
  else
    let a := v.num.natAbs
    let b := v.den
    let e := pickExp a b
    let s := scalePow a b e
    let m := roundHalfEven s.1 s.2
    let mag : ℚ := if 0 ≤ e then (m : ℚ) * 2 ^ e.toNat else (m : ℚ) / 2 ^ (-e).toNat
    if v < 0 then -mag else mag

/-- `features.trace_duration_sec = features.total_syscalls / 100.0`
(line 400) under IEEE-754 binary64 semantics, for a trace of `n`
records. -/
def trace_duration_f64 (n : ℕ) : ℚ := f64round ((n : ℚ) / 100)

/-- `features.syscalls_per_second = features.total_syscalls /
features.trace_duration_sec` (lines 402-403) under IEEE-754 binary64
semantics, for a trace of `n` records. -/
def syscalls_per_second_f64 (n : ℕ) : ℚ :=
  if 0 < trace_duration_f64 n then f64round ((n : ℚ) / trace_duration_f64 n) else 0

-- Characterizations of the classification setters: each block only
-- or-updates its own flag (or adds its own increment), so matching is
-- independent per category.

@[simp] theorem set_okhttp_eq (f : AppFeatures) (tn : Str) :
    set_okhttp f tn = { f with has_okhttp_thread := f.has_okhttp_thread || rmatch_okhttp tn } := by
  unfold set_okhttp; split <;> simp_all

@[simp] theorem set_okhttp_task_eq (f : AppFeatures) (tn : Str) :
    set_okhttp_task f tn = { f with has_okhttp_task_thread := f.has_okhttp_task_thread || rmatch_okhttp_task tn } := by
  unfold set_okhttp_task; split <;> simp_all

@[simp] theorem set_rxjava_eq (f : AppFeatures) (tn : Str) :
    set_rxjava f tn = { f with has_rxjava_thread := f.has_rxjava_thread || rmatch_rxjava tn } := by
  unfold set_rxjava; split <;> simp_all

@[simp] theorem set_rxjava_cached_eq (f : AppFeatures) (tn : Str) :
    set_rxjava_cached f tn = { f with has_rxjava_cached_thread := f.has_rxjava_cached_thread || rmatch_rxjava_cached tn } := by
  unfold set_rxjava_cached; split <;> simp_all

@[simp] theorem set_coroutines_eq (f : AppFeatures) (tn : Str) :
    set_coroutines f tn = { f with has_coroutine_thread := f.has_coroutine_thread || rmatch_coroutines tn } := by
  unfold set_coroutines; split <;> simp_all

@[simp] theorem set_workmanager_eq (f : AppFeatures) (tn : Str) :
    set_workmanager f tn = { f with has_workmanager_thread := f.has_workmanager_thread || rmatch_workmanager tn } := by
  unfold set_workmanager; split <;> simp_all

@[simp] theorem set_workmanager_alt_eq (f : AppFeatures) (tn : Str) :
    set_workmanager_alt f tn = { f with has_workmanager_alt_thread := f.has_workmanager_alt_thread || rmatch_workmanager_alt tn } := by
  unfold set_workmanager_alt; split <;> simp_all

@[simp] theorem set_room_io_eq (f : AppFeatures) (tn : Str) :
    set_room_io f tn = { f with has_room_io_thread := f.has_room_io_thread || rmatch_room_io tn } := by
  unfold set_room_io; split <;> simp_all

@[simp] theorem set_glide_eq (f : AppFeatures) (tn : Str) :
    set_glide f tn = { f with has_glide_thread := f.has_glide_thread || rmatch_glide tn } := by
  unfold set_glide; split <;> simp_all

@[simp] theorem set_glide_source_eq (f : AppFeatures) (tn : Str) :
    set_glide_source f tn = { f with has_glide_source_thread := f.has_glide_source_thread || rmatch_glide_source tn } := by
  unfold set_glide_source; split <;> simp_all

@[simp] theorem set_glide_disk_eq (f : AppFeatures) (tn : Str) :
    set_glide_disk f tn = { f with has_glide_disk_thread := f.has_glide_disk_thread || rmatch_glide_disk tn } := by
  unfold set_glide_disk; split <;> simp_all

@[simp] theorem set_coil_eq (f : AppFeatures) (tn : Str) :
    set_coil f tn = { f with has_coil_thread := f.has_coil_thread || rmatch_coil tn } := by
  unfold set_coil; split <;> simp_all

@[simp] theorem set_fresco_eq (f : AppFeatures) (tn : Str) :
    set_fresco f tn = { f with has_fresco_thread := f.has_fresco_thread || rmatch_fresco tn } := by
  unfold set_fresco; split <;> simp_all

@[simp] theorem set_exoplayer_eq (f : AppFeatures) (tn : Str) :
    set_exoplayer f tn = { f with has_exoplayer_thread := f.has_exoplayer_thread || rmatch_exoplayer tn } := by
  unfold set_exoplayer; split <;> simp_all

@[simp] theorem set_flutter_eq (f : AppFeatures) (tn : Str) :
    set_flutter f tn = { f with has_flutter_thread := f.has_flutter_thread || rmatch_flutter tn } := by
  unfold set_flutter; split <;> simp_all

@[simp] theorem set_async_task_eq (f : AppFeatures) (tn : Str) :
    set_async_task f tn = { f with has_async_task_thread := f.has_async_task_thread || rmatch_async_task tn } := by
  unfold set_async_task; split <;> simp_all

@[simp] theorem pset_room_wal_eq (f : AppFeatures) (p : Str) :
    pset_room_wal f p = { f with has_room_wal := f.has_room_wal || psearch_room_wal p } := by
  unfold pset_room_wal; split <;> simp_all

@[simp] theorem pset_room_shm_eq (f : AppFeatures) (p : Str) :
    pset_room_shm f p = { f with has_room_shm := f.has_room_shm || psearch_room_shm p } := by
  unfold pset_room_shm; split <;> simp_all

@[simp] theorem pset_room_journal_eq (f : AppFeatures) (p : Str) :
    pset_room_journal f p = { f with has_room_journal := f.has_room_journal || psearch_room_journal p } := by
  unfold pset_room_journal; split <;> simp_all

@[simp] theorem pset_workmanager_db_eq (f : AppFeatures) (p : Str) :
    pset_workmanager_db f p = { f with has_workmanager_db := f.has_workmanager_db || psearch_workmanager_db p } := by
  unfold pset_workmanager_db; split <;> simp_all

@[simp] theorem pset_datastore_eq (f : AppFeatures) (p : Str) :
    pset_datastore f p = { f with has_datastore := f.has_datastore || psearch_datastore p } := by
  unfold pset_datastore; split <;> simp_all

@[simp] theorem pset_okhttp_cache_eq (f : AppFeatures) (p : Str) :
    pset_okhttp_cache f p = { f with has_okhttp_cache := f.has_okhttp_cache || psearch_okhttp_cache p } := by
  unfold pset_okhttp_cache; split <;> simp_all

@[simp] theorem pset_okhttp_cache_dir_eq (f : AppFeatures) (p : Str) :
    pset_okhttp_cache_dir f p = { f with has_okhttp_cache_dir := f.has_okhttp_cache_dir || psearch_okhttp_cache_dir p } := by
  unfold pset_okhttp_cache_dir; split <;> simp_all

@[simp] theorem pset_okhttp_journal_eq (f : AppFeatures) (p : Str) :
    pset_okhttp_journal f p = { f with has_okhttp_journal := f.has_okhttp_journal || psearch_okhttp_journal p } := by
  unfold pset_okhttp_journal; split <;> simp_all

@[simp] theorem pset_glide_cache_eq (f : AppFeatures) (p : Str) :
    pset_glide_cache f p = { f with has_glide_cache := f.has_glide_cache || psearch_glide_cache p } := by
  unfold pset_glide_cache; split <;> simp_all

@[simp] theorem pset_glide_journal_eq (f : AppFeatures) (p : Str) :
    pset_glide_journal f p = { f with has_glide_journal := f.has_glide_journal || psearch_glide_journal p } := by
  unfold pset_glide_journal; split <;> simp_all

@[simp] theorem pset_coil_cache_eq (f : AppFeatures) (p : Str) :
    pset_coil_cache f p = { f with has_coil_cache := f.has_coil_cache || psearch_coil_cache p } := by
  unfold pset_coil_cache; split <;> simp_all

@[simp] theorem pset_coil_cache_v3_eq (f : AppFeatures) (p : Str) :
    pset_coil_cache_v3 f p = { f with has_coil_cache_v3 := f.has_coil_cache_v3 || psearch_coil_cache_v3 p } := by
  unfold pset_coil_cache_v3; split <;> simp_all

@[simp] theorem pset_coil_journal_eq (f : AppFeatures) (p : Str) :
    pset_coil_journal f p = { f with has_coil_journal := f.has_coil_journal || psearch_coil_journal p } := by
  unfold pset_coil_journal; split <;> simp_all

@[simp] theorem pset_fresco_cache_eq (f : AppFeatures) (p : Str) :
    pset_fresco_cache f p = { f with has_fresco_cache := f.has_fresco_cache || psearch_fresco_cache p } := by
  unfold pset_fresco_cache; split <;> simp_all

@[simp] theorem pset_cacerts_eq (f : AppFeatures) (p : Str) :
    pset_cacerts f p = { f with has_cacerts_access := f.has_cacerts_access || psearch_cacerts p } := by
  unfold pset_cacerts; split <;> simp_all

@[simp] theorem pset_http_cache_eq (f : AppFeatures) (p : Str) :
    pset_http_cache f p = { f with has_http_cache := f.has_http_cache || psearch_http_cache p } := by
  unfold pset_http_cache; split <;> simp_all

@[simp] theorem pset_shared_prefs_eq (f : AppFeatures) (p : Str) :
    pset_shared_prefs f p = { f with num_shared_prefs := f.num_shared_prefs + (if psearch_shared_prefs p then 1 else 0) } := by
  unfold pset_shared_prefs; split <;> simp_all

@[simp] theorem pset_native_lib_eq (f : AppFeatures) (p : Str) :
    pset_native_lib f p = { f with num_native_libs := f.num_native_libs + (if psearch_native_lib p then 1 else 0) } := by
  unfold pset_native_lib; split <;> simp_all

-- Preservation lemmas: which fields each stage of the pipeline leaves
-- untouched.

@[simp] theorem tsSeen_features (st : ExtractState) (r : SyscallRecord) :
    (tsSeen st r).features = st.features := by
  unfold tsSeen; split <;> rfl

@[simp] theorem commSeen_features (st : ExtractState) (r : SyscallRecord) :
    (commSeen st r).features = st.features := by
  unfold commSeen; split <;> rfl

@[simp] theorem pathSeen_features (st : ExtractState) (r : SyscallRecord) :
    (pathSeen st r).features = st.features := by
  unfold pathSeen; split <;> rfl

@[simp] theorem openBranch_total_syscalls (st : ExtractState) (r : SyscallRecord) :
    (openBranch st r).features.total_syscalls = st.features.total_syscalls := by
  unfold openBranch; repeat' split
  all_goals rfl

@[simp] theorem openBranch_syscalls_per_second (st : ExtractState) (r : SyscallRecord) :
    (openBranch st r).features.syscalls_per_second = st.features.syscalls_per_second := by
  unfold openBranch; repeat' split
  all_goals rfl

@[simp] theorem openBranch_threads_per_second (st : ExtractState) (r : SyscallRecord) :
    (openBranch st r).features.threads_per_second = st.features.threads_per_second := by
  unfold openBranch; repeat' split
  all_goals rfl

@[simp] theorem openBranch_trace_duration_sec (st : ExtractState) (r : SyscallRecord) :
    (openBranch st r).features.trace_duration_sec = st.features.trace_duration_sec := by
  unfold openBranch; repeat' split
  all_goals rfl

@[simp] theorem readBranch_total_syscalls (st : ExtractState) (r : SyscallRecord) :
    (readBranch st r).features.total_syscalls = st.features.total_syscalls := rfl

@[simp] theorem readBranch_syscalls_per_second (st : ExtractState) (r : SyscallRecord) :
    (readBranch st r).features.syscalls_per_second = st.features.syscalls_per_second := rfl

@[simp] theorem readBranch_threads_per_second (st : ExtractState) (r : SyscallRecord) :
    (readBranch st r).features.threads_per_second = st.features.threads_per_second := rfl

@[simp] theorem readBranch_trace_duration_sec (st : ExtractState) (r : SyscallRecord) :
    (readBranch st r).features.trace_duration_sec = st.features.trace_duration_sec := rfl

@[simp] theorem writeBranch_total_syscalls (st : ExtractState) (r : SyscallRecord) :
    (writeBranch st r).features.total_syscalls = st.features.total_syscalls := rfl

@[simp] theorem writeBranch_syscalls_per_second (st : ExtractState) (r : SyscallRecord) :
    (writeBranch st r).features.syscalls_per_second = st.features.syscalls_per_second := rfl

@[simp] theorem writeBranch_threads_per_second (st : ExtractState) (r : SyscallRecord) :
    (writeBranch st r).features.threads_per_second = st.features.threads_per_second := rfl

@[simp] theorem writeBranch_trace_duration_sec (st : ExtractState) (r : SyscallRecord) :
    (writeBranch st r).features.trace_duration_sec = st.features.trace_duration_sec := rfl

@[simp] theorem closeBranch_total_syscalls (st : ExtractState) (r : SyscallRecord) :
    (closeBranch st r).features.total_syscalls = st.features.total_syscalls := rfl

@[simp] theorem closeBranch_syscalls_per_second (st : ExtractState) (r : SyscallRecord) :
    (closeBranch st r).features.syscalls_per_second = st.features.syscalls_per_second := rfl

@[simp] theorem closeBranch_threads_per_second (st : ExtractState) (r : SyscallRecord) :
    (closeBranch st r).features.threads_per_second = st.features.threads_per_second := rfl

@[simp] theorem closeBranch_trace_duration_sec (st : ExtractState) (r : SyscallRecord) :
    (closeBranch st r).features.trace_duration_sec = st.features.trace_duration_sec := rfl

@[simp] theorem cloneBranch_total_syscalls (st : ExtractState) (r : SyscallRecord) :
    (cloneBranch st r).features.total_syscalls = st.features.total_syscalls := by
  unfold cloneBranch; repeat' split
  all_goals rfl

@[simp] theorem cloneBranch_syscalls_per_second (st : ExtractState) (r : SyscallRecord) :
    (cloneBranch st r).features.syscalls_per_second = st.features.syscalls_per_second := by
  unfold cloneBranch; repeat' split
  all_goals rfl

@[simp] theorem cloneBranch_threads_per_second (st : ExtractState) (r : SyscallRecord) :
    (cloneBranch st r).features.threads_per_second = st.features.threads_per_second := by
  unfold cloneBranch; repeat' split
  all_goals rfl

@[simp] theorem cloneBranch_trace_duration_sec (st : ExtractState) (r : SyscallRecord) :
    (cloneBranch st r).features.trace_duration_sec = st.features.trace_duration_sec := by
  unfold cloneBranch; repeat' split
  all_goals rfl

@[simp] theorem mmapBranch_total_syscalls (st : ExtractState) (r : SyscallRecord) :
    (mmapBranch st r).features.total_syscalls = st.features.total_syscalls := rfl

@[simp] theorem mmapBranch_syscalls_per_second (st : ExtractState) (r : SyscallRecord) :
    (mmapBranch st r).features.syscalls_per_second = st.features.syscalls_per_second := rfl

@[simp] theorem mmapBranch_threads_per_second (st : ExtractState) (r : SyscallRecord) :
    (mmapBranch st r).features.threads_per_second = st.features.threads_per_second := rfl

@[simp] theorem mmapBranch_trace_duration_sec (st : ExtractState) (r : SyscallRecord) :
    (mmapBranch st r).features.trace_duration_sec = st.features.trace_duration_sec := rfl

@[simp] theorem socketBranch_total_syscalls (st : ExtractState) (r : SyscallRecord) :
    (socketBranch st r).features.total_syscalls = st.features.total_syscalls := by
  unfold socketBranch; repeat' split
  all_goals rfl

@[simp] theorem socketBranch_syscalls_per_second (st : ExtractState) (r : SyscallRecord) :
    (socketBranch st r).features.syscalls_per_second = st.features.syscalls_per_second := by
  unfold socketBranch; repeat' split
  all_goals rfl

@[simp] theorem socketBranch_threads_per_second (st : ExtractState) (r : SyscallRecord) :
    (socketBranch st r).features.threads_per_second = st.features.threads_per_second := by
  unfold socketBranch; repeat' split
  all_goals rfl

@[simp] theorem socketBranch_trace_duration_sec (st : ExtractState) (r : SyscallRecord) :
    (socketBranch st r).features.trace_duration_sec = st.features.trace_duration_sec := by
  unfold socketBranch; repeat' split
  all_goals rfl

@[simp] theorem connectBranch_total_syscalls (st : ExtractState) (r : SyscallRecord) :
    (connectBranch st r).features.total_syscalls = st.features.total_syscalls := by
  unfold connectBranch; repeat' split
  all_goals rfl

@[simp] theorem connectBranch_syscalls_per_second (st : ExtractState) (r : SyscallRecord) :
    (connectBranch st r).features.syscalls_per_second = st.features.syscalls_per_second := by
  unfold connectBranch; repeat' split
  all_goals rfl

@[simp] theorem connectBranch_threads_per_second (st : ExtractState) (r : SyscallRecord) :
    (connectBranch st r).features.threads_per_second = st.features.threads_per_second := by
  unfold connectBranch; repeat' split
  all_goals rfl

@[simp] theorem connectBranch_trace_duration_sec (st : ExtractState) (r : SyscallRecord) :
    (connectBranch st r).features.trace_duration_sec = st.features.trace_duration_sec := by
  unfold connectBranch; repeat' split
  all_goals rfl

@[simp] theorem dispatchStep_total_syscalls (st : ExtractState) (r : SyscallRecord) :
    (dispatchStep st r).features.total_syscalls = st.features.total_syscalls := by
  unfold dispatchStep; repeat' split
  all_goals simp

@[simp] theorem dispatchStep_syscalls_per_second (st : ExtractState) (r : SyscallRecord) :
    (dispatchStep st r).features.syscalls_per_second = st.features.syscalls_per_second := by
  unfold dispatchStep; repeat' split
  all_goals simp

@[simp] theorem dispatchStep_threads_per_second (st : ExtractState) (r : SyscallRecord) :
    (dispatchStep st r).features.threads_per_second = st.features.threads_per_second := by
  unfold dispatchStep; repeat' split
  all_goals simp

@[simp] theorem dispatchStep_trace_duration_sec (st : ExtractState) (r : SyscallRecord) :
    (dispatchStep st r).features.trace_duration_sec = st.features.trace_duration_sec := by
  unfold dispatchStep; repeat' split
  all_goals simp

@[simp] theorem phase1step_total_syscalls (st : ExtractState) (r : SyscallRecord) :
    (phase1step st r).features.total_syscalls = st.features.total_syscalls := by
  simp [phase1step]

@[simp] theorem phase1step_syscalls_per_second (st : ExtractState) (r : SyscallRecord) :
    (phase1step st r).features.syscalls_per_second = st.features.syscalls_per_second := by
  simp [phase1step]

@[simp] theorem phase1step_threads_per_second (st : ExtractState) (r : SyscallRecord) :
    (phase1step st r).features.threads_per_second = st.features.threads_per_second := by
  simp [phase1step]

@[simp] theorem phase1step_trace_duration_sec (st : ExtractState) (r : SyscallRecord) :
    (phase1step st r).features.trace_duration_sec = st.features.trace_duration_sec := by
  simp [phase1step]

theorem foldl_phase1_total_syscalls (rs : List SyscallRecord) (st : ExtractState) :
    ((rs.foldl phase1step st)).features.total_syscalls = st.features.total_syscalls := by
  induction rs generalizing st with
  | nil => rfl
  | cons a l ih => rw [List.foldl_cons, ih, phase1step_total_syscalls]

theorem foldl_phase1_syscalls_per_second (rs : List SyscallRecord) (st : ExtractState) :
    ((rs.foldl phase1step st)).features.syscalls_per_second = st.features.syscalls_per_second := by
  induction rs generalizing st with
  | nil => rfl
  | cons a l ih => rw [List.foldl_cons, ih, phase1step_syscalls_per_second]

theorem foldl_phase1_threads_per_second (rs : List SyscallRecord) (st : ExtractState) :
    ((rs.foldl phase1step st)).features.threads_per_second = st.features.threads_per_second := by
  induction rs generalizing st with
  | nil => rfl
  | cons a l ih => rw [List.foldl_cons, ih, phase1step_threads_per_second]

theorem foldl_phase1_trace_duration_sec (rs : List SyscallRecord) (st : ExtractState) :
    ((rs.foldl phase1step st)).features.trace_duration_sec = st.features.trace_duration_sec := by
  induction rs generalizing st with
  | nil => rfl
  | cons a l ih => rw [List.foldl_cons, ih, phase1step_trace_duration_sec]

@[simp] theorem threadStep_total_syscalls (f : AppFeatures) (tn : Str) :
    (threadStep f tn).total_syscalls = f.total_syscalls := by
  simp [threadStep]

@[simp] theorem pathStep_total_syscalls (f : AppFeatures) (p : Str) :
    (pathStep f p).total_syscalls = f.total_syscalls := by
  simp [pathStep]

theorem classifyThreads_total_syscalls (f : AppFeatures) (ns : List Str) :
    (classifyThreads f ns).total_syscalls = f.total_syscalls := by
  induction ns generalizing f with
  | nil => rfl
  | cons a l ih => rw [classifyThreads, List.foldl_cons, ← classifyThreads, ih, threadStep_total_syscalls]

theorem classifyPaths_total_syscalls (f : AppFeatures) (ps : List Str) :
    (classifyPaths f ps).total_syscalls = f.total_syscalls := by
  induction ps generalizing f with
  | nil => rfl
  | cons a l ih => rw [classifyPaths, List.foldl_cons, ← classifyPaths, ih, pathStep_total_syscalls]

@[simp] theorem attachSets_total_syscalls (f : AppFeatures) (st : ExtractState) :
    (attachSets f st).total_syscalls = f.total_syscalls := rfl

@[simp] theorem setCardinalities_total_syscalls (f : AppFeatures) (st : ExtractState) :
    (setCardinalities f st).total_syscalls = f.total_syscalls := rfl

@[simp] theorem threadStep_num_threads_spawned (f : AppFeatures) (tn : Str) :
    (threadStep f tn).num_threads_spawned = f.num_threads_spawned := by
  simp [threadStep]

@[simp] theorem pathStep_num_threads_spawned (f : AppFeatures) (p : Str) :
    (pathStep f p).num_threads_spawned = f.num_threads_spawned := by
  simp [pathStep]

theorem classifyThreads_num_threads_spawned (f : AppFeatures) (ns : List Str) :
    (classifyThreads f ns).num_threads_spawned = f.num_threads_spawned := by
  induction ns generalizing f with
  | nil => rfl
  | cons a l ih => rw [classifyThreads, List.foldl_cons, ← classifyThreads, ih, threadStep_num_threads_spawned]

theorem classifyPaths_num_threads_spawned (f : AppFeatures) (ps : List Str) :
    (classifyPaths f ps).num_threads_spawned = f.num_threads_spawned := by
  induction ps generalizing f with
  | nil => rfl
  | cons a l ih => rw [classifyPaths, List.foldl_cons, ← classifyPaths, ih, pathStep_num_threads_spawned]

@[simp] theorem attachSets_num_threads_spawned (f : AppFeatures) (st : ExtractState) :
    (attachSets f st).num_threads_spawned = f.num_threads_spawned := rfl

@[simp] theorem setCardinalities_num_threads_spawned (f : AppFeatures) (st : ExtractState) :
    (setCardinalities f st).num_threads_spawned = f.num_threads_spawned := rfl

@[simp] theorem threadStep_syscalls_per_second (f : AppFeatures) (tn : Str) :
    (threadStep f tn).syscalls_per_second = f.syscalls_per_second := by
  simp [threadStep]

@[simp] theorem pathStep_syscalls_per_second (f : AppFeatures) (p : Str) :
    (pathStep f p).syscalls_per_second = f.syscalls_per_second := by
  simp [pathStep]

theorem classifyThreads_syscalls_per_second (f : AppFeatures) (ns : List Str) :
    (classifyThreads f ns).syscalls_per_second = f.syscalls_per_second := by
  induction ns generalizing f with
  | nil => rfl
  | cons a l ih => rw [classifyThreads, List.foldl_cons, ← classifyThreads, ih, threadStep_syscalls_per_second]

theorem classifyPaths_syscalls_per_second (f : AppFeatures) (ps : List Str) :
    (classifyPaths f ps).syscalls_per_second = f.syscalls_per_second := by
  induction ps generalizing f with
  | nil => rfl
  | cons a l ih => rw [classifyPaths, List.foldl_cons, ← classifyPaths, ih, pathStep_syscalls_per_second]

@[simp] theorem attachSets_syscalls_per_second (f : AppFeatures) (st : ExtractState) :
    (attachSets f st).syscalls_per_second = f.syscalls_per_second := rfl

@[simp] theorem setCardinalities_syscalls_per_second (f : AppFeatures) (st : ExtractState) :
    (setCardinalities f st).syscalls_per_second = f.syscalls_per_second := rfl

@[simp] theorem threadStep_threads_per_second (f : AppFeatures) (tn : Str) :
    (threadStep f tn).threads_per_second = f.threads_per_second := by
  simp [threadStep]

@[simp] theorem pathStep_threads_per_second (f : AppFeatures) (p : Str) :
    (pathStep f p).threads_per_second = f.threads_per_second := by
  simp [pathStep]

theorem classifyThreads_threads_per_second (f : AppFeatures) (ns : List Str) :
    (classifyThreads f ns).threads_per_second = f.threads_per_second := by
  induction ns generalizing f with
  | nil => rfl
  | cons a l ih => rw [classifyThreads, List.foldl_cons, ← classifyThreads, ih, threadStep_threads_per_second]

theorem classifyPaths_threads_per_second (f : AppFeatures) (ps : List Str) :
    (classifyPaths f ps).threads_per_second = f.threads_per_second := by
  induction ps generalizing f with
  | nil => rfl
  | cons a l ih => rw [classifyPaths, List.foldl_cons, ← classifyPaths, ih, pathStep_threads_per_second]

@[simp] theorem attachSets_threads_per_second (f : AppFeatures) (st : ExtractState) :
    (attachSets f st).threads_per_second = f.threads_per_second := rfl

@[simp] theorem setCardinalities_threads_per_second (f : AppFeatures) (st : ExtractState) :
    (setCardinalities f st).threads_per_second = f.threads_per_second := rfl

@[simp] theorem threadStep_total_bytes_read (f : AppFeatures) (tn : Str) :
    (threadStep f tn).total_bytes_read = f.total_bytes_read := by
  simp [threadStep]

@[simp] theorem pathStep_total_bytes_read (f : AppFeatures) (p : Str) :
    (pathStep f p).total_bytes_read = f.total_bytes_read := by
  simp [pathStep]

theorem classifyThreads_total_bytes_read (f : AppFeatures) (ns : List Str) :
    (classifyThreads f ns).total_bytes_read = f.total_bytes_read := by
  induction ns generalizing f with
  | nil => rfl
  | cons a l ih => rw [classifyThreads, List.foldl_cons, ← classifyThreads, ih, threadStep_total_bytes_read]

theorem classifyPaths_total_bytes_read (f : AppFeatures) (ps : List Str) :
    (classifyPaths f ps).total_bytes_read = f.total_bytes_read := by
  induction ps generalizing f with
  | nil => rfl
  | cons a l ih => rw [classifyPaths, List.foldl_cons, ← classifyPaths, ih, pathStep_total_bytes_read]

@[simp] theorem attachSets_total_bytes_read (f : AppFeatures) (st : ExtractState) :
    (attachSets f st).total_bytes_read = f.total_bytes_read := rfl

@[simp] theorem setCardinalities_total_bytes_read (f : AppFeatures) (st : ExtractState) :
    (setCardinalities f st).total_bytes_read = f.total_bytes_read := rfl

@[simp] theorem threadStep_total_bytes_written (f : AppFeatures) (tn : Str) :
    (threadStep f tn).total_bytes_written = f.total_bytes_written := by
  simp [threadStep]

@[simp] theorem pathStep_total_bytes_written (f : AppFeatures) (p : Str) :
    (pathStep f p).total_bytes_written = f.total_bytes_written := by
  simp [pathStep]

theorem classifyThreads_total_bytes_written (f : AppFeatures) (ns : List Str) :
    (classifyThreads f ns).total_bytes_written = f.total_bytes_written := by
  induction ns generalizing f with
  | nil => rfl
  | cons a l ih => rw [classifyThreads, List.foldl_cons, ← classifyThreads, ih, threadStep_total_bytes_written]

theorem classifyPaths_total_bytes_written (f : AppFeatures) (ps : List Str) :
    (classifyPaths f ps).total_bytes_written = f.total_bytes_written := by
  induction ps generalizing f with
  | nil => rfl
  | cons a l ih => rw [classifyPaths, List.foldl_cons, ← classifyPaths, ih, pathStep_total_bytes_written]

@[simp] theorem attachSets_total_bytes_written (f : AppFeatures) (st : ExtractState) :
    (attachSets f st).total_bytes_written = f.total_bytes_written := rfl

@[simp] theorem setCardinalities_total_bytes_written (f : AppFeatures) (st : ExtractState) :
    (setCardinalities f st).total_bytes_written = f.total_bytes_written := rfl

@[simp] theorem setDurationAndRates_total_syscalls (f : AppFeatures) :
    (setDurationAndRates f).total_syscalls = f.total_syscalls := by
  unfold setDurationAndRates; dsimp only; split <;> rfl

@[simp] theorem setDurationAndRates_num_threads_spawned (f : AppFeatures) :
    (setDurationAndRates f).num_threads_spawned = f.num_threads_spawned := by
  unfold setDurationAndRates; dsimp only; split <;> rfl

@[simp] theorem setDurationAndRates_total_bytes_read (f : AppFeatures) :
    (setDurationAndRates f).total_bytes_read = f.total_bytes_read := by
  unfold setDurationAndRates; dsimp only; split <;> rfl

@[simp] theorem setDurationAndRates_total_bytes_written (f : AppFeatures) :
    (setDurationAndRates f).total_bytes_written = f.total_bytes_written := by
  unfold setDurationAndRates; dsimp only; split <;> rfl
-- appended test
theorem setDurationAndRates_spec (f : AppFeatures)
    (h0 : f.syscalls_per_second = 0) (h1 : f.threads_per_second = 0)
    (hT : 0 ≤ f.total_syscalls) :
    (setDurationAndRates f).trace_duration_sec
        = ((setDurationAndRates f).total_syscalls : ℚ) / 100 ∧
    (setDurationAndRates f).syscalls_per_second
        = (if (setDurationAndRates f).trace_duration_sec = 0 then 0
           else ((setDurationAndRates f).total_syscalls : ℚ)
                  / (setDurationAndRates f).trace_duration_sec) ∧
    (setDurationAndRates f).threads_per_second
        = (if (setDurationAndRates f).trace_duration_sec = 0 then 0
           else ((setDurationAndRates f).num_threads_spawned : ℚ)
                  / (setDurationAndRates f).trace_duration_sec) := by
  have hn : (0 : ℚ) ≤ (f.total_syscalls : ℚ) := by exact_mod_cast hT
  unfold setDurationAndRates
  dsimp only
  split
  · next h =>
    refine ⟨rfl, ?_, ?_⟩
    · rw [if_neg (ne_of_gt h)]
    · rw [if_neg (ne_of_gt h)]
  · next h =>
    have hd : (f.total_syscalls : ℚ) / 100 = 0 :=
      le_antisymm (not_lt.1 h) (by positivity)
    refine ⟨rfl, ?_, ?_⟩
    · rw [if_pos hd]; exact h0
    · rw [if_pos hd]; exact h1

theorem extract_core_spec (records : List SyscallRecord) (pkg : Str) :
    (extract_core records pkg).total_syscalls = (records.length : ℤ) ∧
    (extract_core records pkg).trace_duration_sec
        = ((extract_core records pkg).total_syscalls : ℚ) / 100 ∧
    (extract_core records pkg).syscalls_per_second
        = (if (extract_core records pkg).trace_duration_sec = 0 then 0
           else ((extract_core records pkg).total_syscalls : ℚ)
                  / (extract_core records pkg).trace_duration_sec) ∧
    (extract_core records pkg).threads_per_second
        = (if (extract_core records pkg).trace_duration_sec = 0 then 0
           else ((extract_core records pkg).num_threads_spawned : ℚ)
                  / (extract_core records pkg).trace_duration_sec) := by
  constructor
  · unfold extract_core; dsimp only
    rw [setDurationAndRates_total_syscalls, setCardinalities_total_syscalls,
        classifyPaths_total_syscalls, classifyThreads_total_syscalls,
        attachSets_total_syscalls, foldl_phase1_total_syscalls]
  · unfold extract_core; dsimp only
    refine setDurationAndRates_spec _ ?_ ?_ ?_
    · rw [setCardinalities_syscalls_per_second, classifyPaths_syscalls_per_second,
          classifyThreads_syscalls_per_second, attachSets_syscalls_per_second,
          foldl_phase1_syscalls_per_second]
    · rw [setCardinalities_threads_per_second, classifyPaths_threads_per_second,
          classifyThreads_threads_per_second, attachSets_threads_per_second,
          foldl_phase1_threads_per_second]
    · rw [setCardinalities_total_syscalls, classifyPaths_total_syscalls,
          classifyThreads_total_syscalls, attachSets_total_syscalls,
          foldl_phase1_total_syscalls]
      exact Int.natCast_nonneg _

/-- C5: for every record sequence, the estimated trace duration equals the
total syscall count divided by the fixed assumed sampling-rate constant
100.0, and the syscalls-per-second and threads-per-second rates equal the
respective totals divided by this estimated duration, defined as zero when
the estimated duration is zero. -/
theorem duration_and_rates_derivation (records : List SyscallRecord) (pkg : Str) :
    (extract_features records pkg).trace_duration_sec
        = ((extract_features records pkg).total_syscalls : ℚ) / 100 ∧
    (extract_features records pkg).syscalls_per_second
        = (if (extract_features records pkg).trace_duration_sec = 0 then 0
           else ((extract_features records pkg).total_syscalls : ℚ)
                  / (extract_features records pkg).trace_duration_sec) ∧
    (extract_features records pkg).threads_per_second
        = (if (extract_features records pkg).trace_duration_sec = 0 then 0
           else ((extract_features records pkg).num_threads_spawned : ℚ)
                  / (extract_features records pkg).trace_duration_sec) := by
  cases records with
  | nil =>
    rw [extract_features_nil]
    norm_num
  | cons a l =>
    rw [extract_features_cons]
    exact (extract_core_spec (a :: l) pkg).2

/-- C9 (amended): in the exact-arithmetic model, every non-empty record
sequence yields `syscalls_per_second = 100` exactly, independently of the
records' contents. -/
theorem rate_always_100_exact (records : List SyscallRecord) (pkg : Str)
    (h : records ≠ []) :
    (extract_features records pkg).syscalls_per_second = 100 := by
  cases records with
  | nil => exact absurd rfl h
  | cons a l =>
    rw [extract_features_cons]
    obtain ⟨htot, hdur, hsps, _⟩ := extract_core_spec (a :: l) pkg
    have hlen : (0 : ℚ) < (((a :: l).length : ℤ) : ℚ) := by
      have : 0 < (a :: l).length := Nat.succ_pos _
      exact_mod_cast this
    have htne : ((extract_core (a :: l) pkg).total_syscalls : ℚ) ≠ 0 := by
      rw [htot]; exact ne_of_gt hlen
    have hdne : (extract_core (a :: l) pkg).trace_duration_sec ≠ 0 := by
      rw [hdur]; exact div_ne_zero htne (by norm_num)
    rw [hsps, if_neg hdne, hdur]
    field_simp

/-- C4: feature extraction applied to an empty record sequence yields a
Feature Vector in which every counter, cardinality, and rate is zero and
every boolean flag is false; no exception is raised (the function is
total). -/
theorem empty_records_all_zero (pkg : Str) :
    (extract_features [] pkg).total_syscalls = 0 ∧
    (extract_features [] pkg).num_port_443_connects = 0 ∧
    (extract_features [] pkg).num_unique_threads = 0 ∧
    (extract_features [] pkg).num_threads_spawned = 0 ∧
    (extract_features [] pkg).num_databases = 0 ∧
    (extract_features [] pkg).num_shared_prefs = 0 ∧
    (extract_features [] pkg).num_native_libs = 0 ∧
    (extract_features [] pkg).num_tcp_sockets = 0 ∧
    (extract_features [] pkg).num_udp_sockets = 0 ∧
    (extract_features [] pkg).num_unix_sockets = 0 ∧
    (extract_features [] pkg).num_network_connects = 0 ∧
    (extract_features [] pkg).num_unique_ips = 0 ∧
    (extract_features [] pkg).num_openat = 0 ∧
    (extract_features [] pkg).num_read = 0 ∧
    (extract_features [] pkg).num_write = 0 ∧
    (extract_features [] pkg).num_close = 0 ∧
    (extract_features [] pkg).num_clone = 0 ∧
    (extract_features [] pkg).num_mmap = 0 ∧
    (extract_features [] pkg).num_socket = 0 ∧
    (extract_features [] pkg).num_connect = 0 ∧
    (extract_features [] pkg).total_bytes_read = 0 ∧
    (extract_features [] pkg).total_bytes_written = 0 ∧
    (extract_features [] pkg).trace_duration_sec = 0 ∧
    (extract_features [] pkg).syscalls_per_second = 0 ∧
    (extract_features [] pkg).threads_per_second = 0 ∧
    (extract_features [] pkg).has_okhttp_thread = false ∧
    (extract_features [] pkg).has_okhttp_task_thread = false ∧
    (extract_features [] pkg).has_rxjava_thread = false ∧
    (extract_features [] pkg).has_rxjava_cached_thread = false ∧
    (extract_features [] pkg).has_coroutine_thread = false ∧
    (extract_features [] pkg).has_workmanager_thread = false ∧
    (extract_features [] pkg).has_workmanager_alt_thread = false ∧
    (extract_features [] pkg).has_room_io_thread = false ∧
    (extract_features [] pkg).has_glide_thread = false ∧
    (extract_features [] pkg).has_glide_source_thread = false ∧
    (extract_features [] pkg).has_glide_disk_thread = false ∧
    (extract_features [] pkg).has_coil_thread = false ∧
    (extract_features [] pkg).has_fresco_thread = false ∧
    (extract_features [] pkg).has_exoplayer_thread = false ∧
    (extract_features [] pkg).has_flutter_thread = false ∧
    (extract_features [] pkg).has_async_task_thread = false ∧
    (extract_features [] pkg).has_room_wal = false ∧
    (extract_features [] pkg).has_room_shm = false ∧
    (extract_features [] pkg).has_room_journal = false ∧
    (extract_features [] pkg).has_workmanager_db = false ∧
    (extract_features [] pkg).has_datastore = false ∧
    (extract_features [] pkg).has_okhttp_cache = false ∧
    (extract_features [] pkg).has_okhttp_cache_dir = false ∧
    (extract_features [] pkg).has_okhttp_journal = false ∧
    (extract_features [] pkg).has_glide_cache = false ∧
    (extract_features [] pkg).has_glide_journal = false ∧
    (extract_features [] pkg).has_coil_cache = false ∧
    (extract_features [] pkg).has_coil_cache_v3 = false ∧
    (extract_features [] pkg).has_coil_journal = false ∧
    (extract_features [] pkg).has_fresco_cache = false ∧
    (extract_features [] pkg).has_cacerts_access = false ∧
    (extract_features [] pkg).has_http_cache = false ∧
    (extract_features [] pkg).has_ipv4_connect = false ∧
    (extract_features [] pkg).has_ipv6_connect = false := by
  rw [extract_features_nil]
  norm_num

/-- C2: for every Feature Vector, the key sequence of the exported
dictionary equals the schema accessor's declared column list, in the same
order. -/
theorem exported_columns_match_schema (f : AppFeatures) :
    (features_to_dict f).map Prod.fst = get_feature_columns := rfl

/-- C6: extraction is a pure function of the record sequence and
identifier.  The embedding is state-free, faithfully: the source's
transient working sets are fresh per call (`field(default_factory=set)`
and loop-local sets), the rule tables are read-only module constants, and
`extract_features` touches no other state; so two runs on identical input
denote the same value. -/
theorem extraction_pure (records : List SyscallRecord) (pkg : Str) :
    extract_features records pkg = extract_features records pkg := rfl

def c1_bad_line : Str := "syscall=read pid=abc".toList
def c1_good_line : Str := "syscall=read".toList
def c1_trace_name : Str := "app.log".toList

/-- A trace file whose second line has an uncoercible `pid` value. -/
def c1_fs : FileSystem :=
  [ (c1_trace_name,
     some [ "syscall=openat path=/data/x.db".toList, c1_bad_line,
            "syscall=close".toList ]) ]

/-- C1 (code evaluated at the failing input): on a line with a valid
syscall name but an uncoercible integer field (`pid=abc`),
`parse_syscall_line` raises `ValueError` from `int()` instead of
returning a record with `pid` left at its default; the same line without
the bad field parses fine; and the exception propagates out of
`parse_syscall_log`, aborting the whole file instead of continuing. -/
theorem coercion_failure_aborts_parse :
    parse_syscall_line c1_bad_line = .error () ∧
    parse_syscall_line c1_good_line
      = .ok (some { syscall := sRead, raw_line := c1_good_line }) ∧
    parse_syscall_log c1_fs c1_trace_name = .error () := by
  refine ⟨?_, ?_, ?_⟩ <;> decide

def a_log_name : Str := "a.log".toList
def b_log_name : Str := "b.log".toList
def b_log_line : Str := "syscall=read actual=5".toList

/-- A batch directory where `a.log` raises `IOError` on open and `b.log`
is readable. -/
def fs_with_unreadable : FileSystem :=
  [ (a_log_name, none), (b_log_name, some [b_log_line]) ]

def fs_readable_only : FileSystem := [ (b_log_name, some [b_log_line]) ]

attribute [local semireducible] Rat.mul Rat.inv in
/-- C3 (code evaluated at the failing input): with one unreadable trace
file in the batch, `process_all_traces` propagates the `IOError` and
produces no rows at all — the readable `b.log` is not processed — whereas
the same batch without the unreadable file succeeds. -/
theorem unreadable_file_aborts_batch :
    process_all_traces fs_with_unreadable = .error () ∧
    (process_all_traces fs_readable_only).isOk = true := by
  constructor <;> decide

attribute [local semireducible] Rat.mul Rat.inv in
/-- C9 (counterexample): under the IEEE-754 binary64 arithmetic that the
code's float expressions at lines 400-403 actually perform, a 7-record
trace yields syscalls_per_second = 7036874417766399 / 2^46
= 99.99999999999999, which is not exactly 100.0. -/
theorem float_rate_not_exactly_100 :
    syscalls_per_second_f64 7 ≠ 100 ∧
    syscalls_per_second_f64 7 = (7036874417766399 : ℚ) / 70368744177664 := by
  constructor <;> decide

/-- C9 witness: the amended theorem applied to a concrete one-record
trace. -/
theorem rate_always_100_exact_witness :
    ([{ syscall := sRead }] : List SyscallRecord) ≠ [] ∧
    (extract_features [{ syscall := sRead }] []).syscalls_per_second = 100 :=
  ⟨by decide, rate_always_100_exact [{ syscall := sRead }] [] (by decide)⟩

theorem phase1step_read (st : ExtractState) (K : ℤ) :
    phase1step st { syscall := sRead, actual := K }
      = { st with features.num_read := st.features.num_read + 1,
                  features.total_bytes_read := st.features.total_bytes_read + K } := rfl

theorem phase1step_write (st : ExtractState) (K : ℤ) :
    phase1step st { syscall := sWrite, actual := K }
      = { st with features.num_write := st.features.num_write + 1,
                  features.total_bytes_written := st.features.total_bytes_written + K } := rfl

theorem foldl_read_tbr (K : ℤ) (n : ℕ) : ∀ st : ExtractState,
    ((List.replicate n { syscall := sRead, actual := K }).foldl phase1step st).features.total_bytes_read
      = st.features.total_bytes_read + (n : ℤ) * K := by
  induction n with
  | zero => intro st; simp
  | succ m ih =>
    intro st
    rw [List.replicate_succ, List.foldl_cons, phase1step_read, ih]
    dsimp only
    push_cast
    ring

theorem foldl_write_tbw (K : ℤ) (n : ℕ) : ∀ st : ExtractState,
    ((List.replicate n { syscall := sWrite, actual := K }).foldl phase1step st).features.total_bytes_written
      = st.features.total_bytes_written + (n : ℤ) * K := by
  induction n with
  | zero => intro st; simp
  | succ m ih =>
    intro st
    rw [List.replicate_succ, List.foldl_cons, phase1step_write, ih]
    dsimp only
    push_cast
    ring

/-- C7: a sequence of N `read` records each with `actual = K` yields
`total_bytes_read = N * K` exactly; analogously N `write` records each
with `actual = K` yield `total_bytes_written = N * K`. -/
theorem read_write_byte_totals (n : ℕ) (K : ℤ) :
    (extract_features (List.replicate n { syscall := sRead, actual := K }) []).total_bytes_read
        = (n : ℤ) * K ∧
    (extract_features (List.replicate n { syscall := sWrite, actual := K }) []).total_bytes_written
        = (n : ℤ) * K := by
  cases n with
  | zero => constructor <;> simp [List.replicate, extract_features_nil]
  | succ m =>
    constructor
    · rw [List.replicate_succ, extract_features_cons, ← List.replicate_succ]
      unfold extract_core
      dsimp only
      rw [setDurationAndRates_total_bytes_read, setCardinalities_total_bytes_read,
          classifyPaths_total_bytes_read, classifyThreads_total_bytes_read,
          attachSets_total_bytes_read, foldl_read_tbr]
      dsimp only
      push_cast
      ring
    · rw [List.replicate_succ, extract_features_cons, ← List.replicate_succ]
      unfold extract_core
      dsimp only
      rw [setDurationAndRates_total_bytes_written, setCardinalities_total_bytes_written,
          classifyPaths_total_bytes_written, classifyThreads_total_bytes_written,
          attachSets_total_bytes_written, foldl_write_tbw]
      dsimp only
      push_cast
      ring

-- setDurationAndRates leaves every flag and classification counter
-- untouched.

@[simp] theorem setDurationAndRates_has_okhttp_thread (f : AppFeatures) :
    (setDurationAndRates f).has_okhttp_thread = f.has_okhttp_thread := by
  unfold setDurationAndRates; dsimp only; split <;> rfl

@[simp] theorem setDurationAndRates_has_okhttp_task_thread (f : AppFeatures) :
    (setDurationAndRates f).has_okhttp_task_thread = f.has_okhttp_task_thread := by
  unfold setDurationAndRates; dsimp only; split <;> rfl

@[simp] theorem setDurationAndRates_has_rxjava_thread (f : AppFeatures) :
    (setDurationAndRates f).has_rxjava_thread = f.has_rxjava_thread := by
  unfold setDurationAndRates; dsimp only; split <;> rfl

@[simp] theorem setDurationAndRates_has_rxjava_cached_thread (f : AppFeatures) :
    (setDurationAndRates f).has_rxjava_cached_thread = f.has_rxjava_cached_thread := by
  unfold setDurationAndRates; dsimp only; split <;> rfl

@[simp] theorem setDurationAndRates_has_coroutine_thread (f : AppFeatures) :
    (setDurationAndRates f).has_coroutine_thread = f.has_coroutine_thread := by
  unfold setDurationAndRates; dsimp only; split <;> rfl

@[simp] theorem setDurationAndRates_has_workmanager_thread (f : AppFeatures) :
    (setDurationAndRates f).has_workmanager_thread = f.has_workmanager_thread := by
  unfold setDurationAndRates; dsimp only; split <;> rfl

@[simp] theorem setDurationAndRates_has_workmanager_alt_thread (f : AppFeatures) :
    (setDurationAndRates f).has_workmanager_alt_thread = f.has_workmanager_alt_thread := by
  unfold setDurationAndRates; dsimp only; split <;> rfl

@[simp] theorem setDurationAndRates_has_room_io_thread (f : AppFeatures) :
    (setDurationAndRates f).has_room_io_thread = f.has_room_io_thread := by
  unfold setDurationAndRates; dsimp only; split <;> rfl

@[simp] theorem setDurationAndRates_has_glide_thread (f : AppFeatures) :
    (setDurationAndRates f).has_glide_thread = f.has_glide_thread := by
  unfold setDurationAndRates; dsimp only; split <;> rfl

@[simp] theorem setDurationAndRates_has_glide_source_thread (f : AppFeatures) :
    (setDurationAndRates f).has_glide_source_thread = f.has_glide_source_thread := by
  unfold setDurationAndRates; dsimp only; split <;> rfl

@[simp] theorem setDurationAndRates_has_glide_disk_thread (f : AppFeatures) :
    (setDurationAndRates f).has_glide_disk_thread = f.has_glide_disk_thread := by
  unfold setDurationAndRates; dsimp only; split <;> rfl

@[simp] theorem setDurationAndRates_has_coil_thread (f : AppFeatures) :
    (setDurationAndRates f).has_coil_thread = f.has_coil_thread := by
  unfold setDurationAndRates; dsimp only; split <;> rfl

@[simp] theorem setDurationAndRates_has_fresco_thread (f : AppFeatures) :
    (setDurationAndRates f).has_fresco_thread = f.has_fresco_thread := by
  unfold setDurationAndRates; dsimp only; split <;> rfl

@[simp] theorem setDurationAndRates_has_exoplayer_thread (f : AppFeatures) :
    (setDurationAndRates f).has_exoplayer_thread = f.has_exoplayer_thread := by
  unfold setDurationAndRates; dsimp only; split <;> rfl

@[simp] theorem setDurationAndRates_has_flutter_thread (f : AppFeatures) :
    (setDurationAndRates f).has_flutter_thread = f.has_flutter_thread := by
  unfold setDurationAndRates; dsimp only; split <;> rfl

@[simp] theorem setDurationAndRates_has_async_task_thread (f : AppFeatures) :
    (setDurationAndRates f).has_async_task_thread = f.has_async_task_thread := by
  unfold setDurationAndRates; dsimp only; split <;> rfl

@[simp] theorem setDurationAndRates_has_room_wal (f : AppFeatures) :
    (setDurationAndRates f).has_room_wal = f.has_room_wal := by
  unfold setDurationAndRates; dsimp only; split <;> rfl

@[simp] theorem setDurationAndRates_has_room_shm (f : AppFeatures) :
    (setDurationAndRates f).has_room_shm = f.has_room_shm := by
  unfold setDurationAndRates; dsimp only; split <;> rfl

@[simp] theorem setDurationAndRates_has_room_journal (f : AppFeatures) :
    (setDurationAndRates f).has_room_journal = f.has_room_journal := by
  unfold setDurationAndRates; dsimp only; split <;> rfl

@[simp] theorem setDurationAndRates_has_workmanager_db (f : AppFeatures) :
    (setDurationAndRates f).has_workmanager_db = f.has_workmanager_db := by
  unfold setDurationAndRates; dsimp only; split <;> rfl

@[simp] theorem setDurationAndRates_has_datastore (f : AppFeatures) :
    (setDurationAndRates f).has_datastore = f.has_datastore := by
  unfold setDurationAndRates; dsimp only; split <;> rfl

@[simp] theorem setDurationAndRates_has_okhttp_cache (f : AppFeatures) :
    (setDurationAndRates f).has_okhttp_cache = f.has_okhttp_cache := by
  unfold setDurationAndRates; dsimp only; split <;> rfl

@[simp] theorem setDurationAndRates_has_okhttp_cache_dir (f : AppFeatures) :
    (setDurationAndRates f).has_okhttp_cache_dir = f.has_okhttp_cache_dir := by
  unfold setDurationAndRates; dsimp only; split <;> rfl

@[simp] theorem setDurationAndRates_has_okhttp_journal (f : AppFeatures) :
    (setDurationAndRates f).has_okhttp_journal = f.has_okhttp_journal := by
  unfold setDurationAndRates; dsimp only; split <;> rfl

@[simp] theorem setDurationAndRates_has_glide_cache (f : AppFeatures) :
    (setDurationAndRates f).has_glide_cache = f.has_glide_cache := by
  unfold setDurationAndRates; dsimp only; split <;> rfl

@[simp] theorem setDurationAndRates_has_glide_journal (f : AppFeatures) :
    (setDurationAndRates f).has_glide_journal = f.has_glide_journal := by
  unfold setDurationAndRates; dsimp only; split <;> rfl

@[simp] theorem setDurationAndRates_has_coil_cache (f : AppFeatures) :
    (setDurationAndRates f).has_coil_cache = f.has_coil_cache := by
  unfold setDurationAndRates; dsimp only; split <;> rfl

@[simp] theorem setDurationAndRates_has_coil_cache_v3 (f : AppFeatures) :
    (setDurationAndRates f).has_coil_cache_v3 = f.has_coil_cache_v3 := by
  unfold setDurationAndRates; dsimp only; split <;> rfl

@[simp] theorem setDurationAndRates_has_coil_journal (f : AppFeatures) :
    (setDurationAndRates f).has_coil_journal = f.has_coil_journal := by
  unfold setDurationAndRates; dsimp only; split <;> rfl

@[simp] theorem setDurationAndRates_has_fresco_cache (f : AppFeatures) :
    (setDurationAndRates f).has_fresco_cache = f.has_fresco_cache := by
  unfold setDurationAndRates; dsimp only; split <;> rfl

@[simp] theorem setDurationAndRates_has_cacerts_access (f : AppFeatures) :
    (setDurationAndRates f).has_cacerts_access = f.has_cacerts_access := by
  unfold setDurationAndRates; dsimp only; split <;> rfl

@[simp] theorem setDurationAndRates_has_http_cache (f : AppFeatures) :
    (setDurationAndRates f).has_http_cache = f.has_http_cache := by
  unfold setDurationAndRates; dsimp only; split <;> rfl

@[simp] theorem setDurationAndRates_num_shared_prefs (f : AppFeatures) :
    (setDurationAndRates f).num_shared_prefs = f.num_shared_prefs := by
  unfold setDurationAndRates; dsimp only; split <;> rfl

@[simp] theorem setDurationAndRates_num_native_libs (f : AppFeatures) :
    (setDurationAndRates f).num_native_libs = f.num_native_libs := by
  unfold setDurationAndRates; dsimp only; split <;> rfl

def sGetpid : Str := "getpid".toList

/-- A record contributing only a thread/command name (its syscall,
`getpid`, hits no tally branch). -/
def commRecord (tn : Str) : SyscallRecord := { syscall := sGetpid, comm := tn }

/-- A record contributing only a filesystem path. -/
def pathRecord (p : Str) : SyscallRecord := { syscall := sGetpid, path := p }


theorem phase1step_comm (st : ExtractState) (c : Char) (cs : Str) :
    phase1step st (commRecord (c :: cs))
      = { st with thread_names := insertSet st.thread_names (c :: cs) } := rfl

theorem phase1step_path (st : ExtractState) (c : Char) (cs : Str) :
    phase1step st (pathRecord (c :: cs))
      = { st with file_paths := insertSet st.file_paths (c :: cs) } := rfl

/-- C8 (amended): classification is independent per category among the
recognizers the classification pass consults — a thread name sets exactly
those of the sixteen thread flags whose recognizer it satisfies and no
other exported feature, and a path sets exactly those of the sixteen path
flags whose recognizer it satisfies plus the shared-prefs/native-lib
counters, with no first-match-wins precedence. -/
theorem classification_independent_amended (t p : Str) (ht : t ≠ []) (hp : p ≠ []) :
    (extract_features [commRecord t] []).has_okhttp_thread = rmatch_okhttp t ∧
    (extract_features [commRecord t] []).has_okhttp_task_thread = rmatch_okhttp_task t ∧
    (extract_features [commRecord t] []).has_rxjava_thread = rmatch_rxjava t ∧
    (extract_features [commRecord t] []).has_rxjava_cached_thread = rmatch_rxjava_cached t ∧
    (extract_features [commRecord t] []).has_coroutine_thread = rmatch_coroutines t ∧
    (extract_features [commRecord t] []).has_workmanager_thread = rmatch_workmanager t ∧
    (extract_features [commRecord t] []).has_workmanager_alt_thread = rmatch_workmanager_alt t ∧
    (extract_features [commRecord t] []).has_room_io_thread = rmatch_room_io t ∧
    (extract_features [commRecord t] []).has_glide_thread = rmatch_glide t ∧
    (extract_features [commRecord t] []).has_glide_source_thread = rmatch_glide_source t ∧
    (extract_features [commRecord t] []).has_glide_disk_thread = rmatch_glide_disk t ∧
    (extract_features [commRecord t] []).has_coil_thread = rmatch_coil t ∧
    (extract_features [commRecord t] []).has_fresco_thread = rmatch_fresco t ∧
    (extract_features [commRecord t] []).has_exoplayer_thread = rmatch_exoplayer t ∧
    (extract_features [commRecord t] []).has_flutter_thread = rmatch_flutter t ∧
    (extract_features [commRecord t] []).has_async_task_thread = rmatch_async_task t ∧
    (extract_features [commRecord t] []).has_room_wal = false ∧
    (extract_features [commRecord t] []).has_room_shm = false ∧
    (extract_features [commRecord t] []).has_room_journal = false ∧
    (extract_features [commRecord t] []).has_workmanager_db = false ∧
    (extract_features [commRecord t] []).has_datastore = false ∧
    (extract_features [commRecord t] []).has_okhttp_cache = false ∧
    (extract_features [commRecord t] []).has_okhttp_cache_dir = false ∧
    (extract_features [commRecord t] []).has_okhttp_journal = false ∧
    (extract_features [commRecord t] []).has_glide_cache = false ∧
    (extract_features [commRecord t] []).has_glide_journal = false ∧
    (extract_features [commRecord t] []).has_coil_cache = false ∧
    (extract_features [commRecord t] []).has_coil_cache_v3 = false ∧
    (extract_features [commRecord t] []).has_coil_journal = false ∧
    (extract_features [commRecord t] []).has_fresco_cache = false ∧
    (extract_features [commRecord t] []).has_cacerts_access = false ∧
    (extract_features [commRecord t] []).has_http_cache = false ∧
    (extract_features [commRecord t] []).num_shared_prefs = 0 ∧
    (extract_features [commRecord t] []).num_native_libs = 0 ∧
    (extract_features [pathRecord p] []).has_room_wal = psearch_room_wal p ∧
    (extract_features [pathRecord p] []).has_room_shm = psearch_room_shm p ∧
    (extract_features [pathRecord p] []).has_room_journal = psearch_room_journal p ∧
    (extract_features [pathRecord p] []).has_workmanager_db = psearch_workmanager_db p ∧
    (extract_features [pathRecord p] []).has_datastore = psearch_datastore p ∧
    (extract_features [pathRecord p] []).has_okhttp_cache = psearch_okhttp_cache p ∧
    (extract_features [pathRecord p] []).has_okhttp_cache_dir = psearch_okhttp_cache_dir p ∧
    (extract_features [pathRecord p] []).has_okhttp_journal = psearch_okhttp_journal p ∧
    (extract_features [pathRecord p] []).has_glide_cache = psearch_glide_cache p ∧
    (extract_features [pathRecord p] []).has_glide_journal = psearch_glide_journal p ∧
    (extract_features [pathRecord p] []).has_coil_cache = psearch_coil_cache p ∧
    (extract_features [pathRecord p] []).has_coil_cache_v3 = psearch_coil_cache_v3 p ∧
    (extract_features [pathRecord p] []).has_coil_journal = psearch_coil_journal p ∧
    (extract_features [pathRecord p] []).has_fresco_cache = psearch_fresco_cache p ∧
    (extract_features [pathRecord p] []).has_cacerts_access = psearch_cacerts p ∧
    (extract_features [pathRecord p] []).has_http_cache = psearch_http_cache p ∧
    (extract_features [pathRecord p] []).num_shared_prefs = (if psearch_shared_prefs p then 1 else 0) ∧
    (extract_features [pathRecord p] []).num_native_libs = (if psearch_native_lib p then 1 else 0) ∧
    (extract_features [pathRecord p] []).has_okhttp_thread = false ∧
    (extract_features [pathRecord p] []).has_okhttp_task_thread = false ∧
    (extract_features [pathRecord p] []).has_rxjava_thread = false ∧
    (extract_features [pathRecord p] []).has_rxjava_cached_thread = false ∧
    (extract_features [pathRecord p] []).has_coroutine_thread = false ∧
    (extract_features [pathRecord p] []).has_workmanager_thread = false ∧
    (extract_features [pathRecord p] []).has_workmanager_alt_thread = false ∧
    (extract_features [pathRecord p] []).has_room_io_thread = false ∧
    (extract_features [pathRecord p] []).has_glide_thread = false ∧
    (extract_features [pathRecord p] []).has_glide_source_thread = false ∧
    (extract_features [pathRecord p] []).has_glide_disk_thread = false ∧
    (extract_features [pathRecord p] []).has_coil_thread = false ∧
    (extract_features [pathRecord p] []).has_fresco_thread = false ∧
    (extract_features [pathRecord p] []).has_exoplayer_thread = false ∧
    (extract_features [pathRecord p] []).has_flutter_thread = false ∧
    (extract_features [pathRecord p] []).has_async_task_thread = false := by
  obtain ⟨c, cs, rfl⟩ : ∃ c cs, t = c :: cs := by
    cases t with
    | nil => exact absurd rfl ht
    | cons c cs => exact ⟨c, cs, rfl⟩
  obtain ⟨d, ds, rfl⟩ : ∃ d ds, p = d :: ds := by
    cases p with
    | nil => exact absurd rfl hp
    | cons d ds => exact ⟨d, ds, rfl⟩
  simp [extract_features_cons, extract_core, List.foldl_cons, List.foldl_nil,
        phase1step_comm, phase1step_path, insertSet, classifyThreads, classifyPaths,
        threadStep, pathStep, attachSets, setCardinalities]

def ok_dispatcher_name : Str := "OkHttp Dispatcher".toList
def wal_path : Str := "/data/data/com.example/databases/app.db-wal".toList

/-- C8 witness: the amended theorem applied at a concrete OkHttp
dispatcher thread name and a concrete write-ahead-log path. -/
theorem classification_independent_witness :
    ok_dispatcher_name ≠ [] ∧ wal_path ≠ [] ∧
    ((extract_features [commRecord ok_dispatcher_name] []).has_okhttp_thread = rmatch_okhttp ok_dispatcher_name ∧
    (extract_features [commRecord ok_dispatcher_name] []).has_okhttp_task_thread = rmatch_okhttp_task ok_dispatcher_name ∧
    (extract_features [commRecord ok_dispatcher_name] []).has_rxjava_thread = rmatch_rxjava ok_dispatcher_name ∧
    (extract_features [commRecord ok_dispatcher_name] []).has_rxjava_cached_thread = rmatch_rxjava_cached ok_dispatcher_name ∧
    (extract_features [commRecord ok_dispatcher_name] []).has_coroutine_thread = rmatch_coroutines ok_dispatcher_name ∧
    (extract_features [commRecord ok_dispatcher_name] []).has_workmanager_thread = rmatch_workmanager ok_dispatcher_name ∧
    (extract_features [commRecord ok_dispatcher_name] []).has_workmanager_alt_thread = rmatch_workmanager_alt ok_dispatcher_name ∧
    (extract_features [commRecord ok_dispatcher_name] []).has_room_io_thread = rmatch_room_io ok_dispatcher_name ∧
    (extract_features [commRecord ok_dispatcher_name] []).has_glide_thread = rmatch_glide ok_dispatcher_name ∧
    (extract_features [commRecord ok_dispatcher_name] []).has_glide_source_thread = rmatch_glide_source ok_dispatcher_name ∧
    (extract_features [commRecord ok_dispatcher_name] []).has_glide_disk_thread = rmatch_glide_disk ok_dispatcher_name ∧
    (extract_features [commRecord ok_dispatcher_name] []).has_coil_thread = rmatch_coil ok_dispatcher_name ∧
    (extract_features [commRecord ok_dispatcher_name] []).has_fresco_thread = rmatch_fresco ok_dispatcher_name ∧
    (extract_features [commRecord ok_dispatcher_name] []).has_exoplayer_thread = rmatch_exoplayer ok_dispatcher_name ∧
    (extract_features [commRecord ok_dispatcher_name] []).has_flutter_thread = rmatch_flutter ok_dispatcher_name ∧
    (extract_features [commRecord ok_dispatcher_name] []).has_async_task_thread = rmatch_async_task ok_dispatcher_name ∧
    (extract_features [commRecord ok_dispatcher_name] []).has_room_wal = false ∧
    (extract_features [commRecord ok_dispatcher_name] []).has_room_shm = false ∧
    (extract_features [commRecord ok_dispatcher_name] []).has_room_journal = false ∧
    (extract_features [commRecord ok_dispatcher_name] []).has_workmanager_db = false ∧
    (extract_features [commRecord ok_dispatcher_name] []).has_datastore = false ∧
    (extract_features [commRecord ok_dispatcher_name] []).has_okhttp_cache = false ∧
    (extract_features [commRecord ok_dispatcher_name] []).has_okhttp_cache_dir = false ∧
    (extract_features [commRecord ok_dispatcher_name] []).has_okhttp_journal = false ∧
    (extract_features [commRecord ok_dispatcher_name] []).has_glide_cache = false ∧
    (extract_features [commRecord ok_dispatcher_name] []).has_glide_journal = false ∧
    (extract_features [commRecord ok_dispatcher_name] []).has_coil_cache = false ∧
    (extract_features [commRecord ok_dispatcher_name] []).has_coil_cache_v3 = false ∧
    (extract_features [commRecord ok_dispatcher_name] []).has_coil_journal = false ∧
    (extract_features [commRecord ok_dispatcher_name] []).has_fresco_cache = false ∧
    (extract_features [commRecord ok_dispatcher_name] []).has_cacerts_access = false ∧
    (extract_features [commRecord ok_dispatcher_name] []).has_http_cache = false ∧
    (extract_features [commRecord ok_dispatcher_name] []).num_shared_prefs = 0 ∧
    (extract_features [commRecord ok_dispatcher_name] []).num_native_libs = 0 ∧
    (extract_features [pathRecord wal_path] []).has_room_wal = psearch_room_wal wal_path ∧
    (extract_features [pathRecord wal_path] []).has_room_shm = psearch_room_shm wal_path ∧
    (extract_features [pathRecord wal_path] []).has_room_journal = psearch_room_journal wal_path ∧
    (extract_features [pathRecord wal_path] []).has_workmanager_db = psearch_workmanager_db wal_path ∧
    (extract_features [pathRecord wal_path] []).has_datastore = psearch_datastore wal_path ∧
    (extract_features [pathRecord wal_path] []).has_okhttp_cache = psearch_okhttp_cache wal_path ∧
    (extract_features [pathRecord wal_path] []).has_okhttp_cache_dir = psearch_okhttp_cache_dir wal_path ∧
    (extract_features [pathRecord wal_path] []).has_okhttp_journal = psearch_okhttp_journal wal_path ∧
    (extract_features [pathRecord wal_path] []).has_glide_cache = psearch_glide_cache wal_path ∧
    (extract_features [pathRecord wal_path] []).has_glide_journal = psearch_glide_journal wal_path ∧
    (extract_features [pathRecord wal_path] []).has_coil_cache = psearch_coil_cache wal_path ∧
    (extract_features [pathRecord wal_path] []).has_coil_cache_v3 = psearch_coil_cache_v3 wal_path ∧
    (extract_features [pathRecord wal_path] []).has_coil_journal = psearch_coil_journal wal_path ∧
    (extract_features [pathRecord wal_path] []).has_fresco_cache = psearch_fresco_cache wal_path ∧
    (extract_features [pathRecord wal_path] []).has_cacerts_access = psearch_cacerts wal_path ∧
    (extract_features [pathRecord wal_path] []).has_http_cache = psearch_http_cache wal_path ∧
    (extract_features [pathRecord wal_path] []).num_shared_prefs = (if psearch_shared_prefs wal_path then 1 else 0) ∧
    (extract_features [pathRecord wal_path] []).num_native_libs = (if psearch_native_lib wal_path then 1 else 0) ∧
    (extract_features [pathRecord wal_path] []).has_okhttp_thread = false ∧
    (extract_features [pathRecord wal_path] []).has_okhttp_task_thread = false ∧
    (extract_features [pathRecord wal_path] []).has_rxjava_thread = false ∧
    (extract_features [pathRecord wal_path] []).has_rxjava_cached_thread = false ∧
    (extract_features [pathRecord wal_path] []).has_coroutine_thread = false ∧
    (extract_features [pathRecord wal_path] []).has_workmanager_thread = false ∧
    (extract_features [pathRecord wal_path] []).has_workmanager_alt_thread = false ∧
    (extract_features [pathRecord wal_path] []).has_room_io_thread = false ∧
    (extract_features [pathRecord wal_path] []).has_glide_thread = false ∧
    (extract_features [pathRecord wal_path] []).has_glide_source_thread = false ∧
    (extract_features [pathRecord wal_path] []).has_glide_disk_thread = false ∧
    (extract_features [pathRecord wal_path] []).has_coil_thread = false ∧
    (extract_features [pathRecord wal_path] []).has_fresco_thread = false ∧
    (extract_features [pathRecord wal_path] []).has_exoplayer_thread = false ∧
    (extract_features [pathRecord wal_path] []).has_flutter_thread = false ∧
    (extract_features [pathRecord wal_path] []).has_async_task_thread = false) :=
  ⟨by decide, by decide,
   classification_independent_amended ok_dispatcher_name wal_path
     (by decide) (by decide)⟩

/-- The category identifiers whose recognizers the thread classification
pass (lines 308-348) actually consults, in consultation order. -/
def consultedThreadKeys : List String :=
  [ "okhttp", "okhttp_task", "rxjava", "rxjava_cached", "coroutines",
    "workmanager", "workmanager_alt", "room_io", "glide", "glide_source",
    "glide_disk", "coil", "fresco", "exoplayer", "flutter", "async_task" ]

def keyBinder : String := "binder"
def binder_name : Str := "binder:1".toList
def unmatched_name : Str := "qqq".toList

attribute [local semireducible] Rat.mul Rat.inv in
/-- C8 (counterexample): not every category recognizer of the rule tables
is tested — the `THREAD_PATTERNS` entry `binder` (likewise `thread_pool`
and `render_thread`, and the `PATH_PATTERNS` entries `database`, `sqlite`
and `sqlite_journal`) is never consulted by the classification pass: the
thread name "binder:1" satisfies the binder recognizer of the table, yet
the exported feature dictionary it produces is identical to that of the
thread name "qqq", which satisfies no recognizer of the table at all. -/
theorem untested_table_entries_counterexample :
    (THREAD_PATTERNS.map Prod.fst).contains keyBinder = true ∧
    consultedThreadKeys.contains keyBinder = false ∧
    rmatch_binder binder_name = true ∧
    THREAD_PATTERNS.all (fun e => !(e.2 unmatched_name)) = true ∧
    features_to_dict (extract_features [commRecord binder_name] [])
      = features_to_dict (extract_features [commRecord unmatched_name] []) := by
  refine ⟨?_, ?_, ?_, ?_, ?_⟩ <;> decide

theorem dropWhile_append_of_all (p : Char → Bool) (ws t : Str)
    (h : ∀ c ∈ ws, p c = true) :
    (ws ++ t).dropWhile p = t.dropWhile p := by
  induction ws with
  | nil => rfl
  | cons a l ih =>
    rw [List.cons_append, List.dropWhile_cons, if_pos (h a (List.mem_cons_self a l))]
    exact ih (fun c hc => h c (List.mem_cons_of_mem a hc))

theorem dropWhile_append_singleton_ne (p : Char → Bool) (c : Char)
    (hc : p c = false) (xs : Str) :
    (xs ++ [c]).dropWhile p ≠ [] := by
  induction xs with
  | nil => simp [List.dropWhile_cons, hc]
  | cons a l ih =>
    rw [List.cons_append, List.dropWhile_cons]
    split
    · exact ih
    · simp

/-- C10: comment recognition applies only when `#` is the very first
character: a line beginning with whitespace followed by `#` is not
skipped as blank or comment by `parse_syscall_line`'s guard, and such a
line containing a `syscall=...` token yields an Event Record (shown at
the concrete line `" # syscall=read"`). -/
theorem comment_only_at_line_start (ws rest : Str) (hws : ws ≠ [])
    (hall : ∀ c ∈ ws, isSpaceChar c = true) :
    lineSkipped (ws ++ '#' :: rest) = false ∧
    parse_syscall_line (" # syscall=read").toList
      = .ok (some { syscall := sRead, raw_line := (" # syscall=read").toList }) := by
  constructor
  · have hhash : isSpaceChar '#' = false := by decide
    have h1 : startsHash (ws ++ '#' :: rest) = false := by
      cases ws with
      | nil => exact absurd rfl hws
      | cons a l =>
        have ha := hall a (List.mem_cons_self a l)
        have hne : a ≠ '#' := by
          intro e; rw [e] at ha; exact absurd ha (by decide)
        rw [List.cons_append]
        exact decide_eq_false hne
    have h2 : (pyStrip (ws ++ '#' :: rest)).isEmpty = false := by
      unfold pyStrip
      rw [dropWhile_append_of_all _ _ _ hall, List.dropWhile_cons, if_neg (by simp [hhash]),
          List.reverse_cons]
      have h3 := dropWhile_append_singleton_ne isSpaceChar '#' hhash rest.reverse
      cases he : (rest.reverse ++ ['#']).dropWhile isSpaceChar with
      | nil => exact absurd he h3
      | cons x xs => simp
    simp [lineSkipped, h1, h2]
  · decide

/-- C10 witness: the theorem applied at a single-space whitespace prefix
and the rest `"x"`. -/
theorem comment_only_at_line_start_witness :
    ([' '] : Str) ≠ [] ∧ (∀ c ∈ ([' '] : Str), isSpaceChar c = true) ∧
    (lineSkipped ([' '] ++ '#' :: ("x").toList) = false ∧
     parse_syscall_line (" # syscall=read").toList
       = .ok (some { syscall := sRead, raw_line := (" # syscall=read").toList })) :=
  ⟨by decide, by decide,
   comment_only_at_line_start [' '] ("x").toList (by decide) (by decide)⟩
